import Mathlib

/-!
# Encoder mode control and statistics reporting

A shallow embedding of `source/Lib/EncoderLib/EncModeCtrl.h` and
`source/Lib/EncoderLib/Analyze.h`, followed by theorems about it.

Conventions of the embedding.

* `unsigned`/`uint32_t` values are `Nat` below `2 ^ 32`, `uint64_t` values are
  `Nat` below `2 ^ 64`, `int` and `int64_t` values are `Int`; wrap-around is
  written out with `%`.
* `double` values are `Float` (IEEE binary64); they are only stored, passed
  on and combined with the `Float` operations.
* A member function that can hit a `CHECK` returns `Except String _`: the
  error carries the message of the failed check, which stops the run.
* A member function is a function of the fields it touches; a non-const
  member function also returns the state it leaves.
-/

namespace PAMC

/-! ## Fatal checks -/

/-- Modelled from the spec: the macro `CHECK( c, msg )`, whose definition is
outside the two headers. A violated invariant is fatal: when the condition
`c` holds the run is stopped with the message `msg`, otherwise execution
continues. -/
def CHECK (c : Bool) (msg : String) : Except String Unit :=
  if c then Except.error msg else Except.ok ()

/-! ## CacheBlkInfoCtrl: the generation counter (split-parallelism build) -/

/-- The part of `CacheBlkInfoCtrl` that `tick` works on:
`uint64_t m_currTemporalId`. -/
structure CacheBlkInfoCtrl where
  m_currTemporalId : Nat
  deriving DecidableEq, Repr

namespace CacheBlkInfoCtrl

/-- The member `void tick()`:
`m_currTemporalId++; CHECK( m_currTemporalId <= 0, "Problem with integer overflow!" );`
with the increment taken in 64-bit unsigned arithmetic. -/
def tick (s : CacheBlkInfoCtrl) : Except String CacheBlkInfoCtrl :=
  let s1 : CacheBlkInfoCtrl := { s with m_currTemporalId := (s.m_currTemporalId + 1) % 2 ^ 64 }
  match CHECK (decide (s1.m_currTemporalId ≤ 0)) "Problem with integer overflow!" with
  | Except.error msg => Except.error msg
  | Except.ok () => Except.ok s1

/-- The effect of `n` successive calls of `tick()`; a failed check stops the
sequence. -/
def tickN : Nat → CacheBlkInfoCtrl → Except String CacheBlkInfoCtrl
  | 0, s => Except.ok s
  | n + 1, s =>
    match tick s with
    | Except.error msg => Except.error msg
    | Except.ok s1 => tickN n s1

end CacheBlkInfoCtrl

/-! ## Declarations taken from outside the two headers -/

/-- Values of the enumeration `ChromaFormat`, as the integer the enumeration
value stands for. The enumeration is declared outside the two headers; its
enumerators are numbered in the order 4:0:0, 4:2:0, 4:2:2, 4:4:4, and only
their being distinct is used below. -/
abbrev ChromaFormat := Nat

/-- Enumerator `CHROMA_400`. -/
def CHROMA_400 : ChromaFormat := 0
/-- Enumerator `CHROMA_420`. -/
def CHROMA_420 : ChromaFormat := 1
/-- Enumerator `CHROMA_422`. -/
def CHROMA_422 : ChromaFormat := 2
/-- Enumerator `CHROMA_444`. -/
def CHROMA_444 : ChromaFormat := 3
/-- Enumerator `NUM_CHROMA_FORMAT`, which follows the four formats. -/
def NUM_CHROMA_FORMAT : ChromaFormat := 4

/-- The colour components `COMPONENT_Y`, `COMPONENT_Cb`, `COMPONENT_Cr` that
index the arrays of size `MAX_NUM_COMPONENT`. -/
inductive ComponentID where
  | COMPONENT_Y
  | COMPONENT_Cb
  | COMPONENT_Cr
  deriving DecidableEq, Repr

/-- The components in index order, `0 .. MAX_NUM_COMPONENT - 1`. -/
def ComponentID.all : List ComponentID :=
  [ComponentID.COMPONENT_Y, ComponentID.COMPONENT_Cb, ComponentID.COMPONENT_Cr]

/-- The channel types `CHANNEL_TYPE_LUMA`, `CHANNEL_TYPE_CHROMA` that index
`BitDepths::recon` (`MAX_NUM_CHANNEL_TYPE` entries). -/
inductive ChannelType where
  | CHANNEL_TYPE_LUMA
  | CHANNEL_TYPE_CHROMA
  deriving DecidableEq, Repr

/-- The message levels used by the reporting code. -/
inductive MsgLevel where
  | ERROR
  | INFO
  | DETAILS
  deriving DecidableEq, Repr

/-- Constants and helper functions of CommonLib that the two headers use but
do not define. They are parameters of the embedding: every theorem holds for
whatever values they have, under the hypotheses it states. -/
structure CommonLib where
  /-- Macro `MIN_CU_LOG2`. -/
  MIN_CU_LOG2 : Nat
  /-- Macro `MAX_CU_SIZE`. -/
  MAX_CU_SIZE : Nat
  /-- The size class of a block side, `gp_sizeIdxInfo->idxFrom( size )`. -/
  idxFrom : Nat → Nat
  /-- Enumerator `SIZE_2Nx2N` of `PartSize`. -/
  SIZE_2Nx2N : Nat
  /-- Enumerator `NUMBER_OF_PART_SIZES` of `PartSize`. -/
  NUMBER_OF_PART_SIZES : Nat
  /-- Constant `MAX_DOUBLE`. -/
  MAX_DOUBLE : Float
  /-- The initial value of `interHad`: `std::numeric_limits<Distortion>::max()`
  (or `MAX_UINT` without `DISTORTION_TYPE_BUGFIX`). -/
  maxDistortion : Nat
  /-- Function `getNumberValidComponents( chFmt )`. -/
  getNumberValidComponents : ChromaFormat → Nat
  /-- Function `getComponentScaleX( compID, chFmt )`. -/
  getComponentScaleX : ComponentID → ChromaFormat → Nat
  /-- Function `getComponentScaleY( compID, chFmt )`. -/
  getComponentScaleY : ComponentID → ChromaFormat → Nat
  /-- Function `toChannelType( compID )`. -/
  toChannelType : ComponentID → ChannelType

/-- The conversions of the C library that the reporting code calls through
`msg` and `fprintf`; each gives the text one conversion specification
produces for its argument. -/
structure Printf where
  /-- Conversion `%f` of a `double`. -/
  f : Float → String
  /-- Conversion `%8d` of the picture count. -/
  d8 : Nat → String
  /-- Conversion `%12.4lf` of a `double`. -/
  lf12_4 : Float → String
  /-- Conversion `%8.4lf` of a `double`. -/
  lf8_4 : Float → String

/-- Conversion of an `int` to `unsigned` (32 bits). -/
def toUnsigned (x : Int) : Nat := (x % 2 ^ 32).toNat

/-- The expression `a << s` on `int` operands, converted to `uint32_t`. The
value is the one the language defines for `0 <= s` and `a * 2^s < 2^31`. -/
def shlToUInt32 (a : Nat) (s : Int) : Nat := (a * 2 ^ s.toNat) % 2 ^ 32

/-! ## static_vector

`static_vector<T, N>` is declared outside the two headers. It is modelled by
the list of its live elements, first element first, so that the context stack
has its most recently pushed context last. An element access with an index
outside the live elements has no value here (`none`). What `back()` does on
an empty vector is a parameter `emptyBack` of the functions that call it. -/

namespace static_vector

/-- Modelled from the spec: member `empty()` of `static_vector`, true when
the stack holds no context. -/
def empty {T : Type} (v : List T) : Bool := v.isEmpty

/-- Modelled from the spec: member `back()` of `static_vector`, the top of
the stack, that is the last live element; on an empty vector the container
gives `emptyBack`. -/
def back {T : Type} (emptyBack : Except String T) (v : List T) : Except String T :=
  match v.getLast? with
  | some x => Except.ok x
  | none => emptyBack

/-- Modelled from the spec: a write `back().field = value` through the
reference that `back()` of `static_vector` returns, with `f` the field update.
Only the top element is changed. On an empty vector a failing `back()` fails the
write; otherwise the reference is to no live element and the live elements stay
as they are. -/
def modifyBack {T : Type} (emptyBack : Except String T) (f : T → T) (v : List T) :
    Except String (List T) :=
  match v.getLast? with
  | some x => Except.ok (v.dropLast ++ [f x])
  | none =>
    match emptyBack with
    | Except.error msg => Except.error msg
    | Except.ok _ => Except.ok v

/-- Modelled from the spec: a read `v[ft]` of a slot of a `static_vector`
bank, with an `int` index. -/
def get {T : Type} (v : List T) (ft : Int) : Option T :=
  if 0 ≤ ft then v[ft.toNat]? else none

/-- Modelled from the spec: a write `v[ft] = x` to a slot of a
`static_vector` bank, with an `int` index. -/
def set {T : Type} (v : List T) (ft : Int) (x : T) : Option (List T) :=
  if 0 ≤ ft ∧ ft.toNat < v.length then some (v.set ft.toNat x) else none

/-- Modelled from the spec: member `resize( n, val )` of `static_vector`:
keep the first `n` elements, fill up with `val`. -/
def resize {T : Type} (v : List T) (n : Nat) (val : T) : List T :=
  v.take n ++ List.replicate (n - v.length) val

end static_vector

/-! ## Encoder modes to try out -/

/-- Values of the enumeration `EncTestModeType`, as integers (all of
`JVET_K_AFFINE`, `REUSE_CU_RESULTS` and `JVET_K0357_AMVR` enabled). -/
abbrev EncTestModeType := Nat

def ETM_MERGE_SKIP : EncTestModeType := 0
def ETM_INTER_ME : EncTestModeType := 1
def ETM_AFFINE : EncTestModeType := 2
def ETM_INTRA : EncTestModeType := 3
def ETM_IPCM : EncTestModeType := 4
def ETM_SPLIT_QT : EncTestModeType := 5
def ETM_SPLIT_BT_H : EncTestModeType := 6
def ETM_SPLIT_BT_V : EncTestModeType := 7
def ETM_SPLIT_TT_H : EncTestModeType := 8
def ETM_SPLIT_TT_V : EncTestModeType := 9
def ETM_POST_DONT_SPLIT : EncTestModeType := 10
def ETM_RECO_CACHED : EncTestModeType := 11
def ETM_TRIGGER_IMV_LIST : EncTestModeType := 12
def ETM_INVALID : EncTestModeType := 13

/-- Values of the enumeration `EncTestModeOpts`: a 32-bit unsigned bit set
(`JVET_K0357_AMVR` enabled). -/
abbrev EncTestModeOpts := Nat

/-- Enumerator `ETO_STANDARD = 0`. -/
def ETO_STANDARD : EncTestModeOpts := 0
/-- Enumerator `ETO_FORCE_MERGE = 1<<0`. -/
def ETO_FORCE_MERGE : EncTestModeOpts := 1 <<< 0
/-- Enumerator `ETO_IMV_SHIFT = 1`. -/
def ETO_IMV_SHIFT : EncTestModeOpts := 1
/-- Enumerator `ETO_IMV = 7<<ETO_IMV_SHIFT`. -/
def ETO_IMV : EncTestModeOpts := 7 <<< ETO_IMV_SHIFT
/-- Enumerator `ETO_DUMMY = 1<<5`. -/
def ETO_DUMMY : EncTestModeOpts := 1 <<< 5
/-- Enumerator `ETO_INVALID = 0xffffffff`. -/
def ETO_INVALID : EncTestModeOpts := 0xffffffff

/-- The struct `Area` (declared outside the two headers) with the members
the headers read: a position with `int` coordinates and a size. -/
structure Area where
  x : Int
  y : Int
  width : Nat
  height : Nat
  deriving DecidableEq, Repr

/-- The struct `PreCalcValues` (declared outside the two headers) with the
members that `getAreaIdx` reads, all `unsigned`, and the CTU sizes the masks
belong to. -/
structure PreCalcValues where
  maxCUWidth : Nat
  maxCUHeight : Nat
  maxCUWidthMask : Nat
  maxCUHeightMask : Nat
  deriving DecidableEq, Repr

/-- The function `getAreaIdx`; the four results are `idx1 .. idx4`.
`idx1 = (area.x & pcv.maxCUWidthMask) >> MIN_CU_LOG2`, and so on. -/
def getAreaIdx (K : CommonLib) (area : Area) (pcv : PreCalcValues) : Nat × Nat × Nat × Nat :=
  let idx1 := (toUnsigned area.x &&& pcv.maxCUWidthMask) >>> K.MIN_CU_LOG2
  let idx2 := (toUnsigned area.y &&& pcv.maxCUHeightMask) >>> K.MIN_CU_LOG2
  let idx3 := K.idxFrom area.width
  let idx4 := K.idxFrom area.height
  (idx1, idx2, idx3, idx4)

/-- The first two dimensions of the tables `m_codedCUInfo` and
`m_bestEncInfo`: `MAX_CU_SIZE >> MIN_CU_LOG2`. -/
def cacheTableDim (K : CommonLib) : Nat := K.MAX_CU_SIZE >>> K.MIN_CU_LOG2

/-- The struct `EncTestMode`. -/
structure EncTestMode where
  type : EncTestModeType
  opts : EncTestModeOpts
  partSize : Nat
  qp : Int
  lossless : Bool
  deriving DecidableEq, Repr

/-- The default constructor `EncTestMode()`. -/
def EncTestMode.default (K : CommonLib) : EncTestMode :=
  { type := ETM_INVALID, opts := ETO_INVALID, partSize := K.NUMBER_OF_PART_SIZES,
    qp := -1, lossless := false }

/-- The constructor `EncTestMode( _type )`. -/
def EncTestMode.fromType (K : CommonLib) (type : EncTestModeType) : EncTestMode :=
  { type := type, opts := ETO_STANDARD, partSize := K.SIZE_2Nx2N, qp := -1, lossless := false }

/-- The constructor `EncTestMode( _type, _qp, _lossless )`. -/
def EncTestMode.fromTypeQpLossless (K : CommonLib) (type : EncTestModeType) (qp : Int)
    (lossless : Bool) : EncTestMode :=
  { type := type, opts := ETO_STANDARD, partSize := K.SIZE_2Nx2N, qp := qp,
    lossless := lossless }

/-- The constructor `EncTestMode( _type, _partSize, _opts, _qp, _lossless )`. -/
def EncTestMode.fromAll (type : EncTestModeType) (partSize : Nat) (opts : EncTestModeOpts)
    (qp : Int) (lossless : Bool) : EncTestMode :=
  { type := type, opts := opts, partSize := partSize, qp := qp, lossless := lossless }

/-- The function `isModeSplit`: the `switch` on `encTestmode.type` returns true
for the five split cases and false by default. -/
def isModeSplit (encTestmode : EncTestMode) : Bool :=
  if encTestmode.type = ETM_SPLIT_QT ∨ encTestmode.type = ETM_SPLIT_BT_H ∨
      encTestmode.type = ETM_SPLIT_BT_V ∨ encTestmode.type = ETM_SPLIT_TT_H ∨
      encTestmode.type = ETM_SPLIT_TT_V then true
  else false

/-- The function `isModeNoSplit`:
`!isModeSplit( encTestmode ) && encTestmode.type != ETM_POST_DONT_SPLIT`. -/
def isModeNoSplit (encTestmode : EncTestMode) : Bool :=
  !isModeSplit encTestmode && decide (encTestmode.type ≠ ETM_POST_DONT_SPLIT)

/-- The function `isModeInter` (`JVET_K_AFFINE` enabled). -/
def isModeInter (encTestmode : EncTestMode) : Bool :=
  decide (encTestmode.type = ETM_INTER_ME) || decide (encTestmode.type = ETM_MERGE_SKIP) ||
    decide (encTestmode.type = ETM_AFFINE)

/-- The enumerators of `PartSplit` (declared outside the two headers) that
`getPartSplit` returns; different enumerators are different values. -/
inductive PartSplit where
  | CU_QUAD_SPLIT
  | CU_HORZ_SPLIT
  | CU_VERT_SPLIT
  | CU_TRIH_SPLIT
  | CU_TRIV_SPLIT
  | CU_DONT_SPLIT
  deriving DecidableEq, Repr

/-- The function `getPartSplit`: the `switch` on `encTestmode.type`. -/
def getPartSplit (encTestmode : EncTestMode) : PartSplit :=
  if encTestmode.type = ETM_SPLIT_QT then PartSplit.CU_QUAD_SPLIT
  else if encTestmode.type = ETM_SPLIT_BT_H then PartSplit.CU_HORZ_SPLIT
  else if encTestmode.type = ETM_SPLIT_BT_V then PartSplit.CU_VERT_SPLIT
  else if encTestmode.type = ETM_SPLIT_TT_H then PartSplit.CU_TRIH_SPLIT
  else if encTestmode.type = ETM_SPLIT_TT_V then PartSplit.CU_TRIV_SPLIT
  else PartSplit.CU_DONT_SPLIT

/-- The indices into `CodingStructure::features` that `getCSEncMode` uses. -/
inductive EncFeature where
  | ENC_FT_ENC_MODE_TYPE
  | ENC_FT_ENC_MODE_PART
  | ENC_FT_ENC_MODE_OPTS
  deriving DecidableEq, Repr

/-- The conversion `(unsigned)x` of a `double`: the value truncated towards
zero, for the values the language defines it for. -/
def doubleToUnsigned (x : Float) : Nat := x.toUInt32.toNat

/-- Conversion of an `unsigned` value to `int` (32 bits): the values from
`2^31` on wrap to the negative numbers, so that `4294967295` becomes -1. -/
def unsignedToInt (u : Nat) : Int := ((u : Int) + 2 ^ 31) % 2 ^ 32 - 2 ^ 31

/-- The function `getCSEncMode`; the argument is the member `features` of the
coding structure `cs`, the only member the function reads. The call
`EncTestMode( EncTestModeType( .. ), PartSize( .. ), EncTestModeOpts( .. ) )`
has three arguments, and the only constructor of `EncTestMode` with three
parameters is `EncTestMode( _type, _qp, _lossless )`: the `PartSize` value,
made from an `unsigned`, is converted to the `int` parameter `_qp` and the
`EncTestModeOpts` value to the `bool` parameter `_lossless`. -/
def getCSEncMode (K : CommonLib) (features : EncFeature → Float) : EncTestMode :=
  EncTestMode.fromTypeQpLossless K
    (doubleToUnsigned (features EncFeature.ENC_FT_ENC_MODE_TYPE))
    (unsignedToInt (doubleToUnsigned (features EncFeature.ENC_FT_ENC_MODE_PART)))
    (decide (doubleToUnsigned (features EncFeature.ENC_FT_ENC_MODE_OPTS) ≠ 0))

/-! ## ComprCUCtx: the per-node search context -/

/-- The part of `CodingStructure` that the constructor of `ComprCUCtx` reads:
the luma area `cs.area.Y()` and the values behind `cs.pcv`. -/
structure CodingStructure where
  areaY : Area
  pcv : PreCalcValues
  deriving DecidableEq, Repr

/-- The struct `ComprCUCtx` (with `JVET_K1000_SIMPLIFIED_EMT` and
`ENABLE_SPLIT_PARALLELISM` enabled). The pointers `bestCS`, `bestCU`, `bestTU`
are `none` for `nullptr` and otherwise name the object pointed to. -/
structure ComprCUCtx where
  minDepth : Nat
  maxDepth : Nat
  cuX : Nat
  cuY : Nat
  cuW : Nat
  cuH : Nat
  partIdx : Nat
  testModes : List EncTestMode
  lastTestMode : EncTestMode
  earlySkip : Bool
  bestCS : Option Nat
  bestCU : Option Nat
  bestTU : Option Nat
  extraFeatures : List Int
  extraFeaturesd : List Float
  bestInterCost : Float
  bestEmtSize2Nx2N1stPass : Float
  skipSecondEMTPass : Bool
  interHad : Nat
  isLevelSplitParallel : Bool

/-- The type argument `T` of `ComprCUCtx::get<T>` and `ComprCUCtx::set`. -/
inductive SlotType where
  | double
  | bool
  | int
  | unsigned
  | int64_t
  deriving DecidableEq, Repr

/-- The values of a slot type: `Float` for `double`, `Bool` for `bool`, the
integer itself for the integer types. -/
@[reducible] def SlotType.Val : SlotType → Type
  | SlotType.double => Float
  | SlotType.bool => Bool
  | SlotType.int => Int
  | SlotType.unsigned => Int
  | SlotType.int64_t => Int

/-- The integers that are values of the type: `int` is 32 bits signed,
`unsigned` 32 bits unsigned, `int64_t` 64 bits signed. -/
def SlotType.Holds : (T : SlotType) → T.Val → Prop
  | SlotType.double, _ => True
  | SlotType.bool, _ => True
  | SlotType.int, v => -(2 ^ 31) ≤ v ∧ v < 2 ^ 31
  | SlotType.unsigned, v => 0 ≤ v ∧ v < 2 ^ 32
  | SlotType.int64_t, v => -(2 ^ 63) ≤ v ∧ v < 2 ^ 63

namespace ComprCUCtx

/-- The constructor
`ComprCUCtx( cs, _minDepth, _maxDepth, numExtraFeatures )`. -/
def create (K : CommonLib) (cs : CodingStructure) (minDepth maxDepth numExtraFeatures : Nat) :
    ComprCUCtx :=
  let idx := getAreaIdx K cs.areaY cs.pcv
  let cuX := idx.1
  let cuY := idx.2.1
  { minDepth := minDepth
    maxDepth := maxDepth
    cuX := cuX
    cuY := cuY
    cuW := idx.2.2.1
    cuH := idx.2.2.2
    partIdx := ((cuX <<< 8) % 2 ^ 32) ||| cuY
    testModes := []
    lastTestMode := EncTestMode.default K
    earlySkip := false
    bestCS := none
    bestCU := none
    bestTU := none
    extraFeatures := static_vector.resize [] numExtraFeatures 0
    extraFeaturesd := static_vector.resize [] numExtraFeatures 0.0
    bestInterCost := K.MAX_DOUBLE
    bestEmtSize2Nx2N1stPass := K.MAX_DOUBLE
    skipSecondEMTPass := false
    interHad := K.maxDistortion
    isLevelSplitParallel := false }

/-- The member `template<typename T> T get( int ft ) const`:
`typeid(T) == typeid(double) ? (T&)extraFeaturesd[ft] : T(extraFeatures[ft])`.
The conversion `T( x )` of the stored `int64_t` is `x != 0` for `bool`, the
low 32 bits (signed or unsigned) for `int` and `unsigned`, and `x` itself for
`int64_t`. -/
def get (c : ComprCUCtx) : (T : SlotType) → Int → Option T.Val
  | SlotType.double, ft => static_vector.get c.extraFeaturesd ft
  | SlotType.bool, ft =>
    (static_vector.get c.extraFeatures ft).map (fun x => decide (x ≠ 0))
  | SlotType.int, ft =>
    (static_vector.get c.extraFeatures ft).map (fun x => (x + 2 ^ 31) % 2 ^ 32 - 2 ^ 31)
  | SlotType.unsigned, ft =>
    (static_vector.get c.extraFeatures ft).map (fun x => x % 2 ^ 32)
  | SlotType.int64_t, ft =>
    (static_vector.get c.extraFeatures ft).map (fun x => x)

/-- The two members `set`: the overload `set( int ft, double val )` writes
`extraFeaturesd[ft] = val`, the template `set( int ft, T val )` writes
`extraFeatures[ft] = int64_t( val )`. A call with a `double` argument selects
the overload. The conversion `int64_t( val )` gives 1 or 0 for a `bool` and
keeps the value of an `int`, `unsigned` or `int64_t`. -/
def set (c : ComprCUCtx) : (T : SlotType) → Int → T.Val → Option ComprCUCtx
  | SlotType.double, ft, val =>
    (static_vector.set c.extraFeaturesd ft val).map (fun v => { c with extraFeaturesd := v })
  | SlotType.bool, ft, val =>
    (static_vector.set c.extraFeatures ft (if val = true then 1 else 0)).map
      (fun v => { c with extraFeatures := v })
  | SlotType.int, ft, val =>
    (static_vector.set c.extraFeatures ft val).map (fun v => { c with extraFeatures := v })
  | SlotType.unsigned, ft, val =>
    (static_vector.set c.extraFeatures ft val).map (fun v => { c with extraFeatures := v })
  | SlotType.int64_t, ft, val =>
    (static_vector.set c.extraFeatures ft val).map (fun v => { c with extraFeatures := v })

end ComprCUCtx

/-! ## EncModeCtrl: the context stack and its accessors -/

/-- The data members of `EncModeCtrl` that the inline accessors touch. The
pointers to the configuration, rate control, cost and slice objects and the
luma delta-QP table are left out: no accessor below reads or writes them. -/
structure EncModeCtrl where
  m_fastDeltaQP : Bool
  m_ComprCUCtxList : List ComprCUCtx
  m_runNextInParallel : Int

namespace EncModeCtrl

/-- The member `getComprCUCtx`:
`CHECK( m_ComprCUCtxList.empty(), "Accessing empty list!"); return m_ComprCUCtxList.back();`.
The function is not const: the state after the call is returned with the
context. -/
def getComprCUCtx (emptyBack : Except String ComprCUCtx) (s : EncModeCtrl) :
    Except String (ComprCUCtx × EncModeCtrl) :=
  match CHECK (static_vector.empty s.m_ComprCUCtxList) "Accessing empty list!" with
  | Except.error msg => Except.error msg
  | Except.ok () =>
    match static_vector.back emptyBack s.m_ComprCUCtxList with
    | Except.error msg => Except.error msg
    | Except.ok c => Except.ok (c, s)

/-- The member `getBestInterCost`: `return m_ComprCUCtxList.back().bestInterCost;`. -/
def getBestInterCost (emptyBack : Except String ComprCUCtx) (s : EncModeCtrl) :
    Except String Float :=
  (static_vector.back emptyBack s.m_ComprCUCtxList).map (fun c => c.bestInterCost)

/-- The member `getInterHad`: `return m_ComprCUCtxList.back().interHad;`. -/
def getInterHad (emptyBack : Except String ComprCUCtx) (s : EncModeCtrl) : Except String Nat :=
  (static_vector.back emptyBack s.m_ComprCUCtxList).map (fun c => c.interHad)

/-- The member `enforceInterHad`: `m_ComprCUCtxList.back().interHad = had;`. -/
def enforceInterHad (emptyBack : Except String ComprCUCtx) (had : Nat) (s : EncModeCtrl) :
    Except String EncModeCtrl :=
  (static_vector.modifyBack emptyBack (fun c => { c with interHad := had })
    s.m_ComprCUCtxList).map (fun l => { s with m_ComprCUCtxList := l })

/-- The member `getEmtSize2Nx2NFirstPassCost`:
`return m_ComprCUCtxList.back().bestEmtSize2Nx2N1stPass;`. -/
def getEmtSize2Nx2NFirstPassCost (emptyBack : Except String ComprCUCtx) (s : EncModeCtrl) :
    Except String Float :=
  (static_vector.back emptyBack s.m_ComprCUCtxList).map (fun c => c.bestEmtSize2Nx2N1stPass)

/-- The member `getSkipSecondEMTPass`:
`return m_ComprCUCtxList.back().skipSecondEMTPass;`. -/
def getSkipSecondEMTPass (emptyBack : Except String ComprCUCtx) (s : EncModeCtrl) :
    Except String Bool :=
  (static_vector.back emptyBack s.m_ComprCUCtxList).map (fun c => c.skipSecondEMTPass)

/-- The member `setSkipSecondEMTPass`:
`m_ComprCUCtxList.back().skipSecondEMTPass = b;`. -/
def setSkipSecondEMTPass (emptyBack : Except String ComprCUCtx) (b : Bool) (s : EncModeCtrl) :
    Except String EncModeCtrl :=
  (static_vector.modifyBack emptyBack (fun c => { c with skipSecondEMTPass := b })
    s.m_ComprCUCtxList).map (fun l => { s with m_ComprCUCtxList := l })

end EncModeCtrl

/-! ## EncModeCtrlMTnoRQT: the enumeration of the heuristic slots -/

/-- The compile-time switches that select enumerators of `ExtraFeatures`. -/
structure FeatureSwitches where
  JVET_K0220_ENC_CTRL : Bool
  HM_NO_ADDITIONAL_SPEEDUPS : Bool
  JVET_K0357_AMVR : Bool
  REUSE_CU_RESULTS : Bool
  deriving DecidableEq, Repr

/-- The names of the enumerators of `EncModeCtrlMTnoRQT::ExtraFeatures`. -/
inductive ExtraFeatures where
  | DID_HORZ_SPLIT
  | DID_VERT_SPLIT
  | DID_QUAD_SPLIT
  | BEST_HORZ_SPLIT_COST
  | BEST_VERT_SPLIT_COST
  | BEST_TRIH_SPLIT_COST
  | BEST_TRIV_SPLIT_COST
  | DO_TRIH_SPLIT
  | DO_TRIV_SPLIT
  | BEST_NON_SPLIT_COST
  | HISTORY_NEED_TO_SAVE
  | HISTORY_DO_SAVE
  | SAVE_LOAD_TAG
  | BEST_NO_IMV_COST
  | BEST_IMV_COST
  | QT_BEFORE_BT
  | IS_BEST_NOSPLIT_SKIP
  | MAX_QT_SUB_DEPTH
  | IS_REUSING_CU
  | NUM_EXTRA_FEATURES
  deriving DecidableEq, Repr

namespace ExtraFeatures

/-- The enumerator list of the declaration `enum ExtraFeatures`, as the
switches leave it: each enumerator with its initializer, if it has one. -/
def declaration (S : FeatureSwitches) : List (ExtraFeatures × Option Nat) :=
  [(DID_HORZ_SPLIT, some 0), (DID_VERT_SPLIT, none)] ++
  (if !S.HM_NO_ADDITIONAL_SPEEDUPS || S.JVET_K0220_ENC_CTRL then [(DID_QUAD_SPLIT, none)]
    else []) ++
  [(BEST_HORZ_SPLIT_COST, none), (BEST_VERT_SPLIT_COST, none), (BEST_TRIH_SPLIT_COST, none),
    (BEST_TRIV_SPLIT_COST, none), (DO_TRIH_SPLIT, none), (DO_TRIV_SPLIT, none),
    (BEST_NON_SPLIT_COST, none)] ++
  (if !S.JVET_K0220_ENC_CTRL then
      [(HISTORY_NEED_TO_SAVE, none), (HISTORY_DO_SAVE, none), (SAVE_LOAD_TAG, none)]
    else []) ++
  (if S.JVET_K0357_AMVR then [(BEST_NO_IMV_COST, none), (BEST_IMV_COST, none)] else []) ++
  (if !S.HM_NO_ADDITIONAL_SPEEDUPS || S.JVET_K0220_ENC_CTRL then
      [(QT_BEFORE_BT, none), (IS_BEST_NOSPLIT_SKIP, none), (MAX_QT_SUB_DEPTH, none)]
    else []) ++
  (if S.REUSE_CU_RESULTS then [(IS_REUSING_CU, none)] else []) ++
  [(NUM_EXTRA_FEATURES, none)]

/-- The values an enumerator list gives its enumerators: the initializer
where there is one, otherwise one more than the enumerator before (`next`). -/
def enumValues : List (ExtraFeatures × Option Nat) → Nat → List (ExtraFeatures × Nat)
  | [], _ => []
  | (e, some v) :: rest, _ => (e, v) :: enumValues rest (v + 1)
  | (e, none) :: rest, next => (e, next) :: enumValues rest (next + 1)

/-- The enumerators of the declaration with their values; the first
enumerator without initializer would be 0. -/
def values (S : FeatureSwitches) : List (ExtraFeatures × Nat) :=
  enumValues (declaration S) 0

/-- The value of an enumerator, `none` when the switches leave it out. -/
def value (S : FeatureSwitches) (e : ExtraFeatures) : Option Nat :=
  ((values S).find? (fun p => decide (p.1 = e))).map (fun p => p.2)

/-- The value of the last enumerator, `NUM_EXTRA_FEATURES`. -/
def numExtraFeatures (S : FeatureSwitches) : Nat :=
  (value S NUM_EXTRA_FEATURES).getD 0

end ExtraFeatures

/-! ## Analyze: the statistics accumulator and its reports

Build switches: `FRAME_WEIGHTING` is 0 (as the header defines it) and
`EXTENSION_360_VIDEO` is off; `ENABLE_QPA` and `WCG_WPSNR` are parameters. -/

/-- The build switches that select code in `printOut`. -/
structure Build where
  ENABLE_QPA : Bool
  WCG_WPSNR : Bool
  deriving DecidableEq, Repr

/-- The field `recon` of `BitDepths`: `int recon[MAX_NUM_CHANNEL_TYPE]`. -/
structure BitDepths where
  recon : ChannelType → Int

/-- The data members of the class `Analyze`. -/
structure Analyze where
  m_dPSNRSum : ComponentID → Float
  m_dAddBits : Float
  m_uiNumPic : Nat
  m_dFrmRate : Float
  m_MSEyuvframe : ComponentID → Float

/-- What a reporting call did: the calls of `msg` in order (level and text),
the text written to the file opened for appending, the status passed to
`exit` when the call ended the run, and whether the call crashed by writing
through a null stream. -/
structure Report where
  msgs : List (MsgLevel × String)
  file : String
  exit : Option Nat
  crash : Bool := false

namespace Analyze

/-- The member `getPsnr`. -/
def getPsnr (a : Analyze) (compID : ComponentID) : Float := a.m_dPSNRSum compID

/-- The member `getBits`. -/
def getBits (a : Analyze) : Float := a.m_dAddBits

/-- The member `getNumPic`. -/
def getNumPic (a : Analyze) : Nat := a.m_uiNumPic

/-- The member `clear`: the sums and the picture count are set to 0; the
frame rate is not touched. -/
def clear (a : Analyze) : Analyze :=
  let a1 : Analyze := { a with m_dAddBits := 0 }
  let a2 : Analyze := ComponentID.all.foldl
    (fun (acc : Analyze) (i : ComponentID) =>
      { acc with
        m_dPSNRSum := fun c => if c = i then 0 else acc.m_dPSNRSum c
        m_MSEyuvframe := fun c => if c = i then 0 else acc.m_MSEyuvframe c })
    a1
  { a2 with m_uiNumPic := 0 }

/-- The member `addResult( psnr, bits, MSEyuvframe )`: `m_dAddBits += bits`,
then for each component `m_dPSNRSum[i] += psnr[i]` and
`m_MSEyuvframe[i] += MSEyuvframe[i]`, then `m_uiNumPic++` on 32 bits. -/
def addResult (a : Analyze) (psnr : ComponentID → Float) (bits : Float)
    (MSEyuvframe : ComponentID → Float) : Analyze :=
  let a1 : Analyze := { a with m_dAddBits := a.m_dAddBits + bits }
  let a2 : Analyze := ComponentID.all.foldl
    (fun (acc : Analyze) (i : ComponentID) =>
      { acc with
        m_dPSNRSum := fun c => if c = i then acc.m_dPSNRSum i + psnr i else acc.m_dPSNRSum c
        m_MSEyuvframe := fun c =>
          if c = i then acc.m_MSEyuvframe i + MSEyuvframe i else acc.m_MSEyuvframe c })
    a1
  { a2 with m_uiNumPic := (a2.m_uiNumPic + 1) % 2 ^ 32 }

/-- The arguments of one call of `addResult`. -/
structure Result where
  psnr : ComponentID → Float
  bits : Float
  MSEyuvframe : ComponentID → Float

/-- The effect of the calls `addResult` with the arguments `rs`, in order. -/
def addResults (a : Analyze) (rs : List Result) : Analyze :=
  rs.foldl (fun acc r => acc.addResult r.psnr r.bits r.MSEyuvframe) a

/-- The member `getWPSNR` (`ENABLE_QPA`, no frame weighting):
`m_dPSNRSum[compID] / (double)m_uiNumPic`. -/
def getWPSNR (a : Analyze) (compID : ComponentID) : Float :=
  a.m_dPSNRSum compID / Float.ofNat a.m_uiNumPic

/-- One round of the component loop of `calculateCombinedValues` on the pair
`(scale, MSEyuv)`. -/
def combineStep (K : CommonLib) (a : Analyze) (chFmt : ChromaFormat) (bitDepths : BitDepths)
    (maximumBitDepth : Int) (acc : Int × Float) (compID : ComponentID) : Int × Float :=
  let csx := K.getComponentScaleX compID chFmt
  let csy := K.getComponentScaleY compID chFmt
  let scaleChan : Int := ((4 >>> (csx + csy) : Nat) : Int)
  let bitDepthShift : Nat := toUnsigned (2 * (maximumBitDepth - bitDepths.recon (K.toChannelType compID)))
  let channelMSE : Float :=
    (a.m_MSEyuvframe compID * Float.ofNat (1 <<< bitDepthShift)) / Float.ofNat a.getNumPic
  (acc.1 + scaleChan, acc.2 + Float.ofInt scaleChan * channelMSE)

/-- The member `calculateCombinedValues`; the result is `(PSNRyuv, MSEyuv)`.
The loop over the channel types after luma has its one round, for chroma; the
component loop runs over the first `numberValidComponents` components. -/
def calculateCombinedValues (K : CommonLib) (a : Analyze) (chFmt : ChromaFormat)
    (bitDepths : BitDepths) : Float × Float :=
  let lumaDepth := bitDepths.recon ChannelType.CHANNEL_TYPE_LUMA
  let chromaDepth := bitDepths.recon ChannelType.CHANNEL_TYPE_CHROMA
  let maximumBitDepth : Int := if chromaDepth > lumaDepth then chromaDepth else lumaDepth
  let maxval : Nat := shlToUInt32 255 (maximumBitDepth - 8)
  let numberValidComponents := K.getNumberValidComponents chFmt
  let acc := (ComponentID.all.take numberValidComponents).foldl
    (combineStep K a chFmt bitDepths maximumBitDepth) (0, 0)
  let MSEyuv : Float := acc.2 / Float.ofInt acc.1
  let PSNRyuv : Float :=
    if MSEyuv == 0 then 999.99
    else 10.0 * Float.log10 (Float.ofNat ((maxval * maxval) % 2 ^ 32) / MSEyuv)
  (PSNRyuv, MSEyuv)

/-- The value `MSEBasedSNR[compID]` that `printOut` computes when
`printMSEBasedSNR` is set. -/
def mseBasedSNR (K : CommonLib) (a : Analyze) (bitDepths : BitDepths) (dScale : Float)
    (compID : ComponentID) : Float :=
  if a.getNumPic = 0 then 0 * dScale
  else
    let maxval : Nat := shlToUInt32 255 (bitDepths.recon (K.toChannelType compID) - 8)
    let MSE := a.m_MSEyuvframe compID
    if MSE == 0 then 999.99
    else 10.0 * Float.log10 (Float.ofNat ((maxval * maxval) % 2 ^ 32) /
      (MSE / Float.ofNat a.getNumPic))

/-- The member `printOut`. The argument `useWPSNR` exists in builds with
`ENABLE_QPA` or `WCG_WPSNR` and is `false` otherwise. -/
def printOut (K : CommonLib) (P : Printf) (B : Build) (a : Analyze) (cDelim : Char)
    (chFmt : ChromaFormat) (printMSEBasedSNR printSequenceMSE : Bool) (bitDepths : BitDepths)
    (useWPSNR : Bool) : Report :=
  let e_msg_level : MsgLevel :=
    if !B.WCG_WPSNR then (if cDelim = 'a' then MsgLevel.INFO else MsgLevel.DETAILS)
    else (if cDelim = 'a' ∨ cDelim = 'w' then MsgLevel.INFO else MsgLevel.DETAILS)
  let dFps := a.m_dFrmRate
  let dScale := dFps / 1000 / Float.ofNat a.m_uiNumPic
  let MSEBasedSNR := mseBasedSNR K a bitDepths dScale
  let wpsnrHeader : Bool := (B.ENABLE_QPA || B.WCG_WPSNR) && useWPSNR
  let psnr (c : ComponentID) : Float :=
    if B.ENABLE_QPA && useWPSNR then a.getWPSNR c else a.getPsnr c / Float.ofNat a.getNumPic
  let count := P.d8 a.getNumPic ++ "    " ++ String.singleton cDelim ++ " "
  if chFmt = CHROMA_400 then
    let mseHeader := if printSequenceMSE then "    Y-MSE\n" else "\n"
    let mseColumn :=
      if printSequenceMSE then
        "  " ++ P.lf8_4 (a.m_MSEyuvframe ComponentID.COMPONENT_Y / Float.ofNat a.getNumPic) ++ "\n"
      else "\n"
    if printMSEBasedSNR then
      { msgs :=
          [ (e_msg_level,
              if wpsnrHeader then "         \tTotal Frames |   Bitrate     Y-WPSNR"
              else "         \tTotal Frames |   Bitrate     Y-PSNR"),
            (e_msg_level, mseHeader),
            (e_msg_level, "Average: \t " ++ count ++ P.lf12_4 (a.getBits * dScale) ++ "  " ++
              P.lf8_4 (psnr ComponentID.COMPONENT_Y)),
            (e_msg_level, mseColumn),
            (e_msg_level, "From MSE:\t " ++ count ++ P.lf12_4 (a.getBits * dScale) ++ "  " ++
              P.lf8_4 (MSEBasedSNR ComponentID.COMPONENT_Y) ++ "\n") ]
        file := ""
        exit := none }
    else
      { msgs :=
          [ (e_msg_level,
              if wpsnrHeader then "\tTotal Frames |   Bitrate     Y-WPSNR"
              else "\tTotal Frames |   Bitrate     Y-PSNR"),
            (e_msg_level, mseHeader),
            (e_msg_level, "\t " ++ count ++ P.lf12_4 (a.getBits * dScale) ++ "  " ++
              P.lf8_4 (psnr ComponentID.COMPONENT_Y)),
            (e_msg_level, mseColumn) ]
        file := ""
        exit := none }
  else if chFmt = CHROMA_420 ∨ chFmt = CHROMA_422 ∨ chFmt = CHROMA_444 then
    let combined := calculateCombinedValues K a chFmt bitDepths
    let PSNRyuv := combined.1
    let MSEyuv := combined.2
    let mseHeader :=
      if printSequenceMSE then " Y-MSE     U-MSE     V-MSE    YUV-MSE \n" else "\n"
    let mseColumns :=
      if printSequenceMSE then
        "  " ++ P.lf8_4 (a.m_MSEyuvframe ComponentID.COMPONENT_Y / Float.ofNat a.getNumPic) ++
        "  " ++ P.lf8_4 (a.m_MSEyuvframe ComponentID.COMPONENT_Cb / Float.ofNat a.getNumPic) ++
        "  " ++ P.lf8_4 (a.m_MSEyuvframe ComponentID.COMPONENT_Cr / Float.ofNat a.getNumPic) ++
        "  " ++ P.lf8_4 MSEyuv ++ "\n"
      else "\n"
    let average :=
      count ++ P.lf12_4 (a.getBits * dScale) ++
        "  " ++ P.lf8_4 (psnr ComponentID.COMPONENT_Y) ++
        "  " ++ P.lf8_4 (psnr ComponentID.COMPONENT_Cb) ++
        "  " ++ P.lf8_4 (psnr ComponentID.COMPONENT_Cr) ++
        "  " ++ P.lf8_4 PSNRyuv
    if printMSEBasedSNR then
      { msgs :=
          [ (e_msg_level,
              if wpsnrHeader then
                "         \tTotal Frames |   Bitrate     Y-WPSNR   U-WPSNR   V-WPSNR   YUV-WPSNR"
              else
                "         \tTotal Frames |   Bitrate     Y-PSNR    U-PSNR    V-PSNR    YUV-PSNR "),
            (e_msg_level, mseHeader),
            (e_msg_level, "Average: \t " ++ average),
            (e_msg_level, mseColumns),
            (e_msg_level, "From MSE:\t " ++ count ++ P.lf12_4 (a.getBits * dScale) ++
              "  " ++ P.lf8_4 (MSEBasedSNR ComponentID.COMPONENT_Y) ++
              "  " ++ P.lf8_4 (MSEBasedSNR ComponentID.COMPONENT_Cb) ++
              "  " ++ P.lf8_4 (MSEBasedSNR ComponentID.COMPONENT_Cr) ++
              "  " ++ P.lf8_4 PSNRyuv ++ "\n") ]
        file := ""
        exit := none }
    else
      { msgs :=
          [ (e_msg_level,
              if wpsnrHeader then
                "\tTotal Frames |   Bitrate     Y-WPSNR   U-WPSNR   V-WPSNR   YUV-WPSNR"
              else
                "\tTotal Frames |   Bitrate     Y-PSNR    U-PSNR    V-PSNR    YUV-PSNR "),
            (e_msg_level, mseHeader),
            (e_msg_level, "\t " ++ average),
            (e_msg_level, mseColumns) ]
        file := ""
        exit := none }
  else
    { msgs := [(MsgLevel.ERROR, "Unknown format during print out\n")]
      file := ""
      exit := some 1 }

/-- The member `printSummary`. The argument `fopen` stands for the C library:
`fopen name` is true when `fopen( name, "at" )` returns a stream and false
when it returns the null pointer. The result of `fopen` is not checked: with
the null pointer the first `fprintf` crashes and nothing is written. `file`
of the result is the text written to the file `sFilename`. -/
def printSummary (K : CommonLib) (P : Printf) (fopen : String → Bool) (a : Analyze)
    (chFmt : ChromaFormat) (printSequenceMSE : Bool) (bitDepths : BitDepths)
    (sFilename : String) : Report :=
  let pFile := fopen sFilename
  let dFps := a.m_dFrmRate
  let dScale := dFps / 1000 / Float.ofNat a.m_uiNumPic
  if chFmt = CHROMA_400 then
    if pFile = true then
      { msgs := []
        file := P.f (a.getBits * dScale) ++ "\t " ++
          P.f (a.getPsnr ComponentID.COMPONENT_Y / Float.ofNat a.getNumPic) ++ "\n"
        exit := none }
    else
      { msgs := [], file := "", exit := none, crash := true }
  else if chFmt = CHROMA_420 ∨ chFmt = CHROMA_422 ∨ chFmt = CHROMA_444 then
    let combined := calculateCombinedValues K a chFmt bitDepths
    let PSNRyuv := combined.1
    let MSEyuv := combined.2
    let first :=
      P.f (a.getBits * dScale) ++ "\t " ++
      P.f (a.getPsnr ComponentID.COMPONENT_Y / Float.ofNat a.getNumPic) ++ "\t " ++
      P.f (a.getPsnr ComponentID.COMPONENT_Cb / Float.ofNat a.getNumPic) ++ "\t " ++
      P.f (a.getPsnr ComponentID.COMPONENT_Cr / Float.ofNat a.getNumPic) ++ "\t " ++
      P.f PSNRyuv
    let second :=
      if printSequenceMSE then
        "\t " ++ P.f (a.m_MSEyuvframe ComponentID.COMPONENT_Y / Float.ofNat a.getNumPic) ++
        "\t " ++ P.f (a.m_MSEyuvframe ComponentID.COMPONENT_Cb / Float.ofNat a.getNumPic) ++
        "\t " ++ P.f (a.m_MSEyuvframe ComponentID.COMPONENT_Cr / Float.ofNat a.getNumPic) ++
        "\t " ++ P.f MSEyuv ++ "\n"
      else "\n"
    if pFile = true then
      { msgs := []
        file := first ++ second
        exit := none }
    else
      { msgs := [], file := "", exit := none, crash := true }
  else
    { msgs := [(MsgLevel.ERROR, "Unknown format during print out\n")]
      file := ""
      exit := some 1 }

/-- The weight of a component in the combined MSE, in the words of the
claim: `4 >> (csx + csy)`. -/
def specWeight (K : CommonLib) (chFmt : ChromaFormat) (compID : ComponentID) : Nat :=
  4 >>> (K.getComponentScaleX compID chFmt + K.getComponentScaleY compID chFmt)

/-- The mean MSE of a component in the words of the claim: the accumulated
MSE sum, rescaled by `2^(2*(maxBitDepth - componentBitDepth))`, divided by
the number of pictures. -/
def specChannelMSE (K : CommonLib) (a : Analyze) (bitDepths : BitDepths)
    (compID : ComponentID) : Float :=
  (a.m_MSEyuvframe compID *
    Float.ofNat (2 ^ toUnsigned (2 *
      (max (bitDepths.recon ChannelType.CHANNEL_TYPE_LUMA)
          (bitDepths.recon ChannelType.CHANNEL_TYPE_CHROMA) -
        bitDepths.recon (K.toChannelType compID))))) /
    Float.ofNat a.getNumPic

/-- The weighted mean of the three component MSEs in the words of the claim:
the weighted values added to 0 in the order Y, Cb, Cr, divided by the total
weight. -/
def specWeightedMean (K : CommonLib) (a : Analyze) (chFmt : ChromaFormat)
    (bitDepths : BitDepths) : Float :=
  (0 +
      Float.ofInt (specWeight K chFmt ComponentID.COMPONENT_Y) *
        specChannelMSE K a bitDepths ComponentID.COMPONENT_Y +
      Float.ofInt (specWeight K chFmt ComponentID.COMPONENT_Cb) *
        specChannelMSE K a bitDepths ComponentID.COMPONENT_Cb +
      Float.ofInt (specWeight K chFmt ComponentID.COMPONENT_Cr) *
        specChannelMSE K a bitDepths ComponentID.COMPONENT_Cr) /
    Float.ofInt ((specWeight K chFmt ComponentID.COMPONENT_Y : Int) +
      specWeight K chFmt ComponentID.COMPONENT_Cb + specWeight K chFmt ComponentID.COMPONENT_Cr)

end Analyze

/-- The values that the helper functions of the chroma format take for the
three colour formats: three valid components; luma is never subsampled;
chroma is subsampled by two in both directions for 4:2:0, horizontally only
for 4:2:2 and not at all for 4:4:4. -/
def CommonLib.SubsamplesAsNamed (K : CommonLib) : Prop :=
  (K.getNumberValidComponents CHROMA_420 = 3 ∧ K.getNumberValidComponents CHROMA_422 = 3 ∧
    K.getNumberValidComponents CHROMA_444 = 3) ∧
  (∀ chFmt, K.getComponentScaleX ComponentID.COMPONENT_Y chFmt = 0 ∧
    K.getComponentScaleY ComponentID.COMPONENT_Y chFmt = 0) ∧
  (∀ compID, compID ≠ ComponentID.COMPONENT_Y →
    (K.getComponentScaleX compID CHROMA_420 = 1 ∧ K.getComponentScaleY compID CHROMA_420 = 1) ∧
    (K.getComponentScaleX compID CHROMA_422 = 1 ∧ K.getComponentScaleY compID CHROMA_422 = 0) ∧
    (K.getComponentScaleX compID CHROMA_444 = 0 ∧ K.getComponentScaleY compID CHROMA_444 = 0))

/-! ## Concrete inputs

A choice of the CommonLib parameters and of the C library conversions, and a
few concrete objects, at which theorems are instantiated. -/

/-- A choice of the CommonLib parameters: 128x128 coding tree units on a 4x4
grid, 64-bit distortion values. -/
def sampleLib : CommonLib where
  MIN_CU_LOG2 := 2
  MAX_CU_SIZE := 128
  idxFrom := fun size => Nat.log2 size
  SIZE_2Nx2N := 0
  NUMBER_OF_PART_SIZES := 8
  MAX_DOUBLE := 1.7e+308
  maxDistortion := 2 ^ 64 - 1
  getNumberValidComponents := fun chFmt => if chFmt = CHROMA_400 then 1 else 3
  getComponentScaleX := fun compID chFmt =>
    if compID = ComponentID.COMPONENT_Y ∨ chFmt = CHROMA_444 then 0 else 1
  getComponentScaleY := fun compID chFmt =>
    if compID = ComponentID.COMPONENT_Y ∨ chFmt ≠ CHROMA_420 then 0 else 1
  toChannelType := fun compID =>
    if compID = ComponentID.COMPONENT_Y then ChannelType.CHANNEL_TYPE_LUMA
    else ChannelType.CHANNEL_TYPE_CHROMA

/-- A choice of the conversions: every number is printed as a fixed text
without tabulator or newline. -/
def samplePrintf : Printf where
  f := fun _ => "0.000000"
  d8 := fun _ => "       0"
  lf12_4 := fun _ => "      0.0000"
  lf8_4 := fun _ => "  0.0000"

/-- A C library in which the file `summary.txt` can be opened for appending
and no other file can. -/
def sampleFopen : String → Bool := fun name => decide (name = "summary.txt")

/-- A coding structure whose luma block is at (200, 72) with size 16x8 in a
picture with 128x128 coding tree units. -/
def sampleCS : CodingStructure where
  areaY := { x := 200, y := 72, width := 16, height := 8 }
  pcv := { maxCUWidth := 128, maxCUHeight := 128, maxCUWidthMask := 127, maxCUHeightMask := 127 }

/-- A context as the constructor builds it for `sampleCS`, with 20 slots in
each bank. -/
def sampleCtx : ComprCUCtx := ComprCUCtx.create sampleLib sampleCS 0 3 20

/-- A controller whose stack holds two contexts. -/
def sampleCtrl : EncModeCtrl where
  m_fastDeltaQP := false
  m_ComprCUCtxList := [sampleCtx, { sampleCtx with minDepth := 1, interHad := 5 }]
  m_runNextInParallel := 0

/-- A controller with an empty stack. -/
def emptyCtrl : EncModeCtrl where
  m_fastDeltaQP := false
  m_ComprCUCtxList := []
  m_runNextInParallel := 0

/-- An accumulator holding the sums of two pictures. -/
def sampleAnalyze : Analyze where
  m_dPSNRSum := fun _ => 80.0
  m_dAddBits := 120000
  m_uiNumPic := 2
  m_dFrmRate := 50
  m_MSEyuvframe := fun _ => 1.5

/-- Bit depths: 10 bits for luma and chroma. -/
def sampleBitDepths : BitDepths where
  recon := fun _ => 10

/-- The results of two pictures. -/
def sampleResults : List Analyze.Result :=
  [ { psnr := fun _ => 40.0, bits := 60000, MSEyuvframe := fun _ => 0.5 },
    { psnr := fun _ => 41.5, bits := 50000, MSEyuvframe := fun _ => 0.25 } ]

/-- The switches with the multi-type-tree control, adaptive motion vector
resolution and result reuse enabled. -/
def sampleSwitches : FeatureSwitches where
  JVET_K0220_ENC_CTRL := true
  HM_NO_ADDITIONAL_SPEEDUPS := false
  JVET_K0357_AMVR := true
  REUSE_CU_RESULTS := true

/-! ## Lemmas on the generation counter -/

theorem CacheBlkInfoCtrl.tick_of_lt (c : Nat) (h : c + 1 < 2 ^ 64) :
    CacheBlkInfoCtrl.tick ⟨c⟩ = Except.ok ⟨c + 1⟩ := by
  have hpos : ¬ (c + 1 ≤ 0) := by omega
  unfold CacheBlkInfoCtrl.tick CHECK
  simp only [Nat.mod_eq_of_lt h, decide_eq_true_eq, if_neg hpos]

theorem CacheBlkInfoCtrl.tick_at_max :
    CacheBlkInfoCtrl.tick ⟨2 ^ 64 - 1⟩ = Except.error "Problem with integer overflow!" := by
  rfl

theorem CacheBlkInfoCtrl.tickN_of_le (n : Nat) :
    ∀ c : Nat, c + n < 2 ^ 64 → CacheBlkInfoCtrl.tickN n ⟨c⟩ = Except.ok ⟨c + n⟩ := by
  induction n with
  | zero => intro c _; rfl
  | succ n ih =>
    intro c h
    have h1 : c + 1 < 2 ^ 64 := by omega
    have h2 : c + 1 + n < 2 ^ 64 := by omega
    simp only [CacheBlkInfoCtrl.tickN, CacheBlkInfoCtrl.tick_of_lt c h1, ih (c + 1) h2]
    congr 2
    omega

/-! ## Theorems: generation counter -/

/-- C1: from any 64-bit counter value `c`, `N` successive calls of `tick()`
with `c + N <= 2^64 - 1` all return normally and leave the counter at
`c + N`; each single one of these calls adds exactly one to the counter. -/
theorem tick_N_times_adds_N (c N : Nat) (h : c + N ≤ 2 ^ 64 - 1) :
    CacheBlkInfoCtrl.tickN N ⟨c⟩ = Except.ok ⟨c + N⟩ ∧
    ∀ i, i < N → CacheBlkInfoCtrl.tick ⟨c + i⟩ = Except.ok ⟨c + i + 1⟩ := by
  refine ⟨CacheBlkInfoCtrl.tickN_of_le N c (by omega), fun i hi => ?_⟩
  exact CacheBlkInfoCtrl.tick_of_lt (c + i) (by omega)

/-- Instance of C1: three calls from `2^64 - 4` reach the maximum `2^64 - 1`. -/
theorem tick_N_times_adds_N_witness :
    2 ^ 64 - 4 + 3 ≤ 2 ^ 64 - 1 ∧
    CacheBlkInfoCtrl.tickN 3 ⟨2 ^ 64 - 4⟩ = Except.ok ⟨2 ^ 64 - 4 + 3⟩ ∧
    ∀ i, i < 3 → CacheBlkInfoCtrl.tick ⟨2 ^ 64 - 4 + i⟩ = Except.ok ⟨2 ^ 64 - 4 + i + 1⟩ :=
  ⟨by decide, tick_N_times_adds_N (2 ^ 64 - 4) 3 (by decide)⟩

/-- C2: for a 64-bit counter value `c`, `tick()` fails, with the overflow
check, exactly when `c` is the maximum `2^64 - 1`; for every smaller value it
returns normally. -/
theorem tick_fails_iff_at_max (c : Nat) (hc : c < 2 ^ 64) :
    (CacheBlkInfoCtrl.tick ⟨c⟩ = Except.error "Problem with integer overflow!" ↔ c = 2 ^ 64 - 1) ∧
    ((∃ msg, CacheBlkInfoCtrl.tick ⟨c⟩ = Except.error msg) ↔ c = 2 ^ 64 - 1) ∧
    (c < 2 ^ 64 - 1 → ∃ s, CacheBlkInfoCtrl.tick ⟨c⟩ = Except.ok s) := by
  by_cases hmax : c = 2 ^ 64 - 1
  · subst hmax
    refine ⟨⟨fun _ => rfl, fun _ => CacheBlkInfoCtrl.tick_at_max⟩,
      ⟨fun _ => rfl, fun _ => ⟨_, CacheBlkInfoCtrl.tick_at_max⟩⟩, fun h => absurd h (lt_irrefl _)⟩
  · have hlt : c + 1 < 2 ^ 64 := by omega
    have hok := CacheBlkInfoCtrl.tick_of_lt c hlt
    refine ⟨⟨fun h => ?_, fun h => absurd h hmax⟩, ⟨fun h => ?_, fun h => absurd h hmax⟩,
      fun _ => ⟨_, hok⟩⟩
    · rw [hok] at h; cases h
    · obtain ⟨msg, h⟩ := h
      rw [hok] at h; cases h

/-- Instance of C2 at the maximum counter value. -/
theorem tick_fails_iff_at_max_witness :
    2 ^ 64 - 1 < 2 ^ 64 ∧
    (CacheBlkInfoCtrl.tick ⟨2 ^ 64 - 1⟩ = Except.error "Problem with integer overflow!" ↔
      2 ^ 64 - 1 = 2 ^ 64 - 1) ∧
    ((∃ msg, CacheBlkInfoCtrl.tick ⟨2 ^ 64 - 1⟩ = Except.error msg) ↔ 2 ^ 64 - 1 = 2 ^ 64 - 1) ∧
    (2 ^ 64 - 1 < 2 ^ 64 - 1 → ∃ s, CacheBlkInfoCtrl.tick ⟨2 ^ 64 - 1⟩ = Except.ok s) :=
  ⟨by decide, tick_fails_iff_at_max (2 ^ 64 - 1) (by decide)⟩

/-! ## Lemmas on static_vector -/

theorem static_vector.back_append_singleton {T : Type} (emptyBack : Except String T)
    (below : List T) (top : T) :
    static_vector.back emptyBack (below ++ [top]) = Except.ok top := by
  simp [static_vector.back]

theorem static_vector.modifyBack_append_singleton {T : Type} (emptyBack : Except String T)
    (f : T → T) (below : List T) (top : T) :
    static_vector.modifyBack emptyBack f (below ++ [top]) = Except.ok (below ++ [f top]) := by
  simp [static_vector.modifyBack]

theorem static_vector.exists_append_singleton {T : Type} (v : List T) (h : v ≠ []) :
    v = v.dropLast ++ [v.getLast h] :=
  (List.dropLast_append_getLast h).symm

theorem static_vector.empty_eq_true_iff {T : Type} (v : List T) :
    static_vector.empty v = true ↔ v = [] := by
  cases v <;> simp [static_vector.empty]

/-! ## Theorems: the context stack -/

/-- C3: `getComprCUCtx` fails with the check "Accessing empty list!" if and
only if the context stack is empty (it fails in no other way); on a
non-empty stack it returns the top, that is the last pushed, context and
leaves the controller as it was. This holds whatever `back()` of the
container does on an empty vector. -/
theorem getComprCUCtx_fails_iff_empty (emptyBack : Except String ComprCUCtx) (s : EncModeCtrl) :
    (EncModeCtrl.getComprCUCtx emptyBack s = Except.error "Accessing empty list!" ↔
      s.m_ComprCUCtxList = []) ∧
    ((∃ msg, EncModeCtrl.getComprCUCtx emptyBack s = Except.error msg) ↔
      s.m_ComprCUCtxList = []) ∧
    (∀ h : s.m_ComprCUCtxList ≠ [],
      EncModeCtrl.getComprCUCtx emptyBack s = Except.ok (s.m_ComprCUCtxList.getLast h, s)) := by
  by_cases he : s.m_ComprCUCtxList = []
  · have hfail : EncModeCtrl.getComprCUCtx emptyBack s = Except.error "Accessing empty list!" := by
      simp [EncModeCtrl.getComprCUCtx, CHECK, static_vector.empty, he]
    exact ⟨⟨fun _ => he, fun _ => hfail⟩, ⟨fun _ => he, fun _ => ⟨_, hfail⟩⟩,
      fun h => absurd he h⟩
  · have hne : static_vector.empty s.m_ComprCUCtxList = false := by
      cases hv : static_vector.empty s.m_ComprCUCtxList
      · rfl
      · exact absurd ((static_vector.empty_eq_true_iff _).1 hv) he
    have hok : EncModeCtrl.getComprCUCtx emptyBack s =
        Except.ok (s.m_ComprCUCtxList.getLast he, s) := by
      have hb := static_vector.back_append_singleton emptyBack s.m_ComprCUCtxList.dropLast
        (s.m_ComprCUCtxList.getLast he)
      rw [← static_vector.exists_append_singleton _ he] at hb
      simp [EncModeCtrl.getComprCUCtx, CHECK, hne, hb]
    refine ⟨⟨fun h => ?_, fun h => absurd h he⟩, ⟨fun h => ?_, fun h => absurd h he⟩,
      fun _ => hok⟩
    · rw [hok] at h; cases h
    · obtain ⟨msg, h⟩ := h
      rw [hok] at h; cases h

/-- Instance of C3 at a stack of two contexts and at the empty stack. -/
theorem getComprCUCtx_fails_iff_empty_witness :
    EncModeCtrl.getComprCUCtx (Except.ok sampleCtx) sampleCtrl =
      Except.ok ({ sampleCtx with minDepth := 1, interHad := 5 }, sampleCtrl) ∧
    EncModeCtrl.getComprCUCtx (Except.ok sampleCtx) emptyCtrl =
      Except.error "Accessing empty list!" :=
  ⟨(getComprCUCtx_fails_iff_empty (Except.ok sampleCtx) sampleCtrl).2.2
      (by simp [sampleCtrl]),
    (getComprCUCtx_fails_iff_empty (Except.ok sampleCtx) emptyCtrl).1.2 rfl⟩

/-- C4 (the code at the failing input): on an empty context stack the
accessors other than `getComprCUCtx` make no check of their own. With a
container whose `back()` hands out a slot `stale` without checking, the
getters return the fields of that slot and the setters return normally,
while `getComprCUCtx` stops the run. -/
theorem accessors_unchecked_on_empty_stack (stale : ComprCUCtx) (fast : Bool) (par : Int)
    (had : Nat) (b : Bool) :
    EncModeCtrl.getBestInterCost (Except.ok stale) ⟨fast, [], par⟩ =
      Except.ok stale.bestInterCost ∧
    EncModeCtrl.getInterHad (Except.ok stale) ⟨fast, [], par⟩ = Except.ok stale.interHad ∧
    EncModeCtrl.enforceInterHad (Except.ok stale) had ⟨fast, [], par⟩ =
      Except.ok ⟨fast, [], par⟩ ∧
    EncModeCtrl.getEmtSize2Nx2NFirstPassCost (Except.ok stale) ⟨fast, [], par⟩ =
      Except.ok stale.bestEmtSize2Nx2N1stPass ∧
    EncModeCtrl.getSkipSecondEMTPass (Except.ok stale) ⟨fast, [], par⟩ =
      Except.ok stale.skipSecondEMTPass ∧
    EncModeCtrl.setSkipSecondEMTPass (Except.ok stale) b ⟨fast, [], par⟩ =
      Except.ok ⟨fast, [], par⟩ ∧
    EncModeCtrl.getComprCUCtx (Except.ok stale) ⟨fast, [], par⟩ =
      Except.error "Accessing empty list!" := by
  refine ⟨rfl, rfl, rfl, rfl, rfl, rfl, rfl⟩

/-- C5: on a non-empty context stack, `enforceInterHad(h)` returns normally,
makes `getInterHad()` return `h`, and changes only the field `interHad` of
the top context: the other members of the controller, the stack depth, the
contexts below the top and every other field of the top context are as
before. Likewise `setSkipSecondEMTPass(b)` makes `getSkipSecondEMTPass()`
return `b` and changes only the field `skipSecondEMTPass` of the top
context. -/
theorem top_setters_change_one_field (emptyBack : Except String ComprCUCtx) (s : EncModeCtrl)
    (h : Nat) (b : Bool) (hne : s.m_ComprCUCtxList ≠ []) :
    (∃ s1, EncModeCtrl.enforceInterHad emptyBack h s = Except.ok s1 ∧
      EncModeCtrl.getInterHad emptyBack s1 = Except.ok h ∧
      s1.m_fastDeltaQP = s.m_fastDeltaQP ∧
      s1.m_runNextInParallel = s.m_runNextInParallel ∧
      s1.m_ComprCUCtxList.length = s.m_ComprCUCtxList.length ∧
      s1.m_ComprCUCtxList.dropLast = s.m_ComprCUCtxList.dropLast ∧
      s1.m_ComprCUCtxList.getLast? =
        some { s.m_ComprCUCtxList.getLast hne with interHad := h }) ∧
    (∃ s2, EncModeCtrl.setSkipSecondEMTPass emptyBack b s = Except.ok s2 ∧
      EncModeCtrl.getSkipSecondEMTPass emptyBack s2 = Except.ok b ∧
      s2.m_fastDeltaQP = s.m_fastDeltaQP ∧
      s2.m_runNextInParallel = s.m_runNextInParallel ∧
      s2.m_ComprCUCtxList.length = s.m_ComprCUCtxList.length ∧
      s2.m_ComprCUCtxList.dropLast = s.m_ComprCUCtxList.dropLast ∧
      s2.m_ComprCUCtxList.getLast? =
        some { s.m_ComprCUCtxList.getLast hne with skipSecondEMTPass := b }) := by
  have hs := static_vector.exists_append_singleton s.m_ComprCUCtxList hne
  have hlen : ∀ x : ComprCUCtx,
      (s.m_ComprCUCtxList.dropLast ++ [x]).length = s.m_ComprCUCtxList.length := by
    intro x
    conv_rhs => rw [hs]
    simp
  constructor
  · refine ⟨{ s with m_ComprCUCtxList := s.m_ComprCUCtxList.dropLast ++
        [{ s.m_ComprCUCtxList.getLast hne with interHad := h }] }, ?_, ?_, rfl, rfl, hlen _, ?_, ?_⟩
    · unfold EncModeCtrl.enforceInterHad
      conv_lhs => rw [hs]
      rw [static_vector.modifyBack_append_singleton]
      rfl
    · unfold EncModeCtrl.getInterHad
      rw [static_vector.back_append_singleton]
      rfl
    · simp
    · simp
  · refine ⟨{ s with m_ComprCUCtxList := s.m_ComprCUCtxList.dropLast ++
        [{ s.m_ComprCUCtxList.getLast hne with skipSecondEMTPass := b }] }, ?_, ?_, rfl, rfl,
        hlen _, ?_, ?_⟩
    · unfold EncModeCtrl.setSkipSecondEMTPass
      conv_lhs => rw [hs]
      rw [static_vector.modifyBack_append_singleton]
      rfl
    · unfold EncModeCtrl.getSkipSecondEMTPass
      rw [static_vector.back_append_singleton]
      rfl
    · simp
    · simp

/-- Instance of C5 at a stack of two contexts. -/
theorem top_setters_change_one_field_witness :
    sampleCtrl.m_ComprCUCtxList ≠ [] ∧
    (∃ s1, EncModeCtrl.enforceInterHad (Except.error "empty") 42 sampleCtrl = Except.ok s1 ∧
      EncModeCtrl.getInterHad (Except.error "empty") s1 = Except.ok 42 ∧
      s1.m_ComprCUCtxList.length = 2) ∧
    (∃ s2, EncModeCtrl.setSkipSecondEMTPass (Except.error "empty") true sampleCtrl =
        Except.ok s2 ∧
      EncModeCtrl.getSkipSecondEMTPass (Except.error "empty") s2 = Except.ok true) :=
  have hne : sampleCtrl.m_ComprCUCtxList ≠ [] := by simp [sampleCtrl]
  match top_setters_change_one_field (Except.error "empty") sampleCtrl 42 true hne with
  | ⟨⟨s1, h1, h2, _, _, h5, _, _⟩, ⟨s2, k1, k2, _⟩⟩ => ⟨hne, ⟨s1, h1, h2, h5⟩, ⟨s2, k1, k2⟩⟩

/-! ## Theorems: reporting -/

/-- The report of a call that ends the run on an unknown chroma format: the
one error message, nothing written to the file, `exit(1)`. -/
theorem Analyze.printSummary_unknown (K : CommonLib) (P : Printf) (fopen : String → Bool)
    (a : Analyze) (chFmt : ChromaFormat) (printSequenceMSE : Bool) (bitDepths : BitDepths)
    (sFilename : String)
    (h400 : chFmt ≠ CHROMA_400) (h420 : chFmt ≠ CHROMA_420) (h422 : chFmt ≠ CHROMA_422)
    (h444 : chFmt ≠ CHROMA_444) :
    Analyze.printSummary K P fopen a chFmt printSequenceMSE bitDepths sFilename =
      { msgs := [(MsgLevel.ERROR, "Unknown format during print out\n")], file := "",
        exit := some 1 } := by
  simp only [Analyze.printSummary, if_neg h400, h420, h422, h444, or_self, if_false]

theorem Analyze.printOut_unknown (K : CommonLib) (P : Printf) (B : Build) (a : Analyze)
    (cDelim : Char) (chFmt : ChromaFormat) (printMSEBasedSNR printSequenceMSE : Bool)
    (bitDepths : BitDepths) (useWPSNR : Bool)
    (h400 : chFmt ≠ CHROMA_400) (h420 : chFmt ≠ CHROMA_420) (h422 : chFmt ≠ CHROMA_422)
    (h444 : chFmt ≠ CHROMA_444) :
    Analyze.printOut K P B a cDelim chFmt printMSEBasedSNR printSequenceMSE bitDepths useWPSNR =
      { msgs := [(MsgLevel.ERROR, "Unknown format during print out\n")], file := "",
        exit := some 1 } := by
  simp only [Analyze.printOut, if_neg h400, h420, h422, h444, or_self, if_false]

theorem Analyze.printOut_supported (K : CommonLib) (P : Printf) (B : Build) (a : Analyze)
    (cDelim : Char) (chFmt : ChromaFormat) (printMSEBasedSNR printSequenceMSE : Bool)
    (bitDepths : BitDepths) (useWPSNR : Bool)
    (h : chFmt = CHROMA_400 ∨ chFmt = CHROMA_420 ∨ chFmt = CHROMA_422 ∨ chFmt = CHROMA_444) :
    (Analyze.printOut K P B a cDelim chFmt printMSEBasedSNR printSequenceMSE bitDepths
        useWPSNR).exit = none ∧
    ∀ m ∈ (Analyze.printOut K P B a cDelim chFmt printMSEBasedSNR printSequenceMSE bitDepths
        useWPSNR).msgs, m.1 ≠ MsgLevel.ERROR := by
  have hlvl : ∀ c : Prop, ∀ _ : Decidable c,
      (if c then MsgLevel.INFO else MsgLevel.DETAILS) ≠ MsgLevel.ERROR := by
    intro c _
    split <;> decide
  have hlevel : (if (!B.WCG_WPSNR) = true then
        (if cDelim = 'a' then MsgLevel.INFO else MsgLevel.DETAILS)
      else (if cDelim = 'a' ∨ cDelim = 'w' then MsgLevel.INFO else MsgLevel.DETAILS)) ≠
      MsgLevel.ERROR := by
    split
    · exact hlvl _ _
    · exact hlvl _ _
  by_cases h400 : chFmt = CHROMA_400
  · cases printMSEBasedSNR <;>
      simp only [Analyze.printOut, if_pos h400, Bool.false_eq_true, if_false, if_true,
        List.mem_cons, List.mem_singleton, List.not_mem_nil, or_false, true_and] <;>
      (rintro m (rfl | rfl | rfl | rfl | rfl) <;> exact hlevel)
  · have h3 : chFmt = CHROMA_420 ∨ chFmt = CHROMA_422 ∨ chFmt = CHROMA_444 := by
      rcases h with h | h
      · exact absurd h h400
      · exact h
    cases printMSEBasedSNR <;>
      simp only [Analyze.printOut, if_neg h400, if_pos h3, Bool.false_eq_true, if_false, if_true,
        List.mem_cons, List.mem_singleton, List.not_mem_nil, or_false, true_and] <;>
      (rintro m (rfl | rfl | rfl | rfl | rfl) <;> exact hlevel)

theorem Analyze.printSummary_supported (K : CommonLib) (P : Printf) (fopen : String → Bool)
    (a : Analyze) (chFmt : ChromaFormat) (printSequenceMSE : Bool) (bitDepths : BitDepths)
    (sFilename : String)
    (h : chFmt = CHROMA_400 ∨ chFmt = CHROMA_420 ∨ chFmt = CHROMA_422 ∨ chFmt = CHROMA_444) :
    (Analyze.printSummary K P fopen a chFmt printSequenceMSE bitDepths sFilename).exit = none ∧
    (Analyze.printSummary K P fopen a chFmt printSequenceMSE bitDepths sFilename).msgs = [] := by
  by_cases h400 : chFmt = CHROMA_400
  · cases hopen : fopen sFilename <;>
      simp [Analyze.printSummary, h400, hopen]
  · have h3 : chFmt = CHROMA_420 ∨ chFmt = CHROMA_422 ∨ chFmt = CHROMA_444 := by
      rcases h with h | h
      · exact absurd h h400
      · exact h
    cases hopen : fopen sFilename <;>
      simp [Analyze.printSummary, h400, h3, hopen]

/-- C6: for a chroma format other than the four supported ones, `printOut`
and `printSummary` each emit the error "Unknown format during print out" and
then call `exit(1)`, with no other message and nothing written to the
file, whether or not the file could be opened; for each of the four
supported formats neither call exits or emits an error message. -/
theorem unknown_chroma_format_is_fatal (K : CommonLib) (P : Printf) (B : Build) (a : Analyze)
    (cDelim : Char) (chFmt : ChromaFormat) (printMSEBasedSNR printSequenceMSE : Bool)
    (bitDepths : BitDepths) (useWPSNR : Bool) (fopen : String → Bool) (sFilename : String) :
    (chFmt ≠ CHROMA_400 → chFmt ≠ CHROMA_420 → chFmt ≠ CHROMA_422 → chFmt ≠ CHROMA_444 →
      Analyze.printOut K P B a cDelim chFmt printMSEBasedSNR printSequenceMSE bitDepths useWPSNR =
        { msgs := [(MsgLevel.ERROR, "Unknown format during print out\n")], file := "",
          exit := some 1 } ∧
      Analyze.printSummary K P fopen a chFmt printSequenceMSE bitDepths sFilename =
        { msgs := [(MsgLevel.ERROR, "Unknown format during print out\n")], file := "",
          exit := some 1 }) ∧
    (chFmt = CHROMA_400 ∨ chFmt = CHROMA_420 ∨ chFmt = CHROMA_422 ∨ chFmt = CHROMA_444 →
      (Analyze.printOut K P B a cDelim chFmt printMSEBasedSNR printSequenceMSE bitDepths
          useWPSNR).exit = none ∧
      (∀ m ∈ (Analyze.printOut K P B a cDelim chFmt printMSEBasedSNR printSequenceMSE bitDepths
          useWPSNR).msgs, m.1 ≠ MsgLevel.ERROR) ∧
      (Analyze.printSummary K P fopen a chFmt printSequenceMSE bitDepths sFilename).exit = none ∧
      (Analyze.printSummary K P fopen a chFmt printSequenceMSE bitDepths sFilename).msgs = []) := by
  refine ⟨fun h400 h420 h422 h444 => ⟨?_, ?_⟩, fun h => ?_⟩
  · exact Analyze.printOut_unknown K P B a cDelim chFmt printMSEBasedSNR printSequenceMSE
      bitDepths useWPSNR h400 h420 h422 h444
  · exact Analyze.printSummary_unknown K P fopen a chFmt printSequenceMSE bitDepths sFilename
      h400 h420 h422 h444
  · have h1 := Analyze.printOut_supported K P B a cDelim chFmt printMSEBasedSNR printSequenceMSE
      bitDepths useWPSNR h
    have h2 := Analyze.printSummary_supported K P fopen a chFmt printSequenceMSE bitDepths
      sFilename h
    exact ⟨h1.1, h1.2, h2.1, h2.2⟩

/-- Instance of C6 at the value `NUM_CHROMA_FORMAT`, which is none of the four
formats, and at 4:2:0. -/
theorem unknown_chroma_format_is_fatal_witness :
    (Analyze.printOut sampleLib samplePrintf ⟨false, false⟩ sampleAnalyze 'a' NUM_CHROMA_FORMAT
        true true sampleBitDepths false =
        { msgs := [(MsgLevel.ERROR, "Unknown format during print out\n")], file := "",
          exit := some 1 } ∧
      Analyze.printSummary sampleLib samplePrintf sampleFopen sampleAnalyze NUM_CHROMA_FORMAT
        true sampleBitDepths "summary.txt" =
        { msgs := [(MsgLevel.ERROR, "Unknown format during print out\n")], file := "",
          exit := some 1 }) ∧
    (Analyze.printSummary sampleLib samplePrintf sampleFopen sampleAnalyze CHROMA_420 true
        sampleBitDepths "summary.txt").exit = none :=
  ⟨(unknown_chroma_format_is_fatal sampleLib samplePrintf ⟨false, false⟩ sampleAnalyze 'a'
      NUM_CHROMA_FORMAT true true sampleBitDepths false sampleFopen "summary.txt").1
      (by decide) (by decide) (by decide) (by decide),
    ((unknown_chroma_format_is_fatal sampleLib samplePrintf ⟨false, false⟩ sampleAnalyze 'a'
      CHROMA_420 true true sampleBitDepths false sampleFopen "summary.txt").2
      (Or.inr (Or.inl rfl))).2.2.1⟩

theorem Printf.count_newline_eq_zero (P : Printf)
    (hP : ∀ d, '\n' ∉ (P.f d).toList ∧ '\t' ∉ (P.f d).toList) (d : Float) :
    List.count '\n' (P.f d).data = 0 :=
  List.count_eq_zero.2 (hP d).1

theorem Printf.count_tab_eq_zero (P : Printf)
    (hP : ∀ d, '\n' ∉ (P.f d).toList ∧ '\t' ∉ (P.f d).toList) (d : Float) :
    List.count '\t' (P.f d).data = 0 :=
  List.count_eq_zero.2 (hP d).2

theorem String.getLast_append_newline (t : String) :
    (t ++ "\n").toList.getLast? = some '\n' := by
  simp [List.getLast?_append]

/-- C7, as amended: for each supported chroma format and each value of
`printSequenceMSE`, one call of `printSummary` for which `fopen` of the named
file succeeds does not crash or exit, and the text it appends to the file is
one line: it holds exactly one newline, as its last character. The line is
the list of its `%f` fields, joined by a tabulator and a blank: 2 fields (bit
rate, luma PSNR) for 4:0:0, where `printSequenceMSE` has no effect, and for
the other formats 5 fields (bit rate, Y, Cb and Cr PSNR, combined PSNR)
followed by the 4 MSE fields exactly when `printSequenceMSE` is set. The `%f`
conversion is taken to produce neither a tabulator nor a newline, so the
tabulators of the line are the separators. -/
theorem printSummary_appends_one_line (K : CommonLib) (P : Printf) (fopen : String → Bool)
    (a : Analyze) (chFmt : ChromaFormat) (printSequenceMSE : Bool) (bitDepths : BitDepths)
    (sFilename : String)
    (hfmt : chFmt = CHROMA_400 ∨ chFmt = CHROMA_420 ∨ chFmt = CHROMA_422 ∨ chFmt = CHROMA_444)
    (hP : ∀ d, '\n' ∉ (P.f d).toList ∧ '\t' ∉ (P.f d).toList)
    (hopen : fopen sFilename = true) :
    ((Analyze.printSummary K P fopen a chFmt printSequenceMSE bitDepths sFilename).crash =
        false ∧
      (Analyze.printSummary K P fopen a chFmt printSequenceMSE bitDepths sFilename).exit =
        none) ∧
    ((Analyze.printSummary K P fopen a chFmt printSequenceMSE bitDepths
        sFilename).file.toList.count '\n' = 1 ∧
      (Analyze.printSummary K P fopen a chFmt printSequenceMSE bitDepths
        sFilename).file.toList.getLast? = some '\n') ∧
    ∃ fields : List Float,
      fields =
        a.getBits * (a.m_dFrmRate / 1000 / Float.ofNat a.m_uiNumPic) ::
        a.getPsnr ComponentID.COMPONENT_Y / Float.ofNat a.getNumPic ::
        (if chFmt = CHROMA_400 then []
          else
            [a.getPsnr ComponentID.COMPONENT_Cb / Float.ofNat a.getNumPic,
              a.getPsnr ComponentID.COMPONENT_Cr / Float.ofNat a.getNumPic,
              (Analyze.calculateCombinedValues K a chFmt bitDepths).1] ++
            (if printSequenceMSE = true then
              [a.m_MSEyuvframe ComponentID.COMPONENT_Y / Float.ofNat a.getNumPic,
                a.m_MSEyuvframe ComponentID.COMPONENT_Cb / Float.ofNat a.getNumPic,
                a.m_MSEyuvframe ComponentID.COMPONENT_Cr / Float.ofNat a.getNumPic,
                (Analyze.calculateCombinedValues K a chFmt bitDepths).2]
              else [])) ∧
      (Analyze.printSummary K P fopen a chFmt printSequenceMSE bitDepths sFilename).file =
        "\t ".intercalate (List.map P.f fields) ++ "\n" ∧
      fields.length =
        (if chFmt = CHROMA_400 then 2 else if printSequenceMSE = true then 9 else 5) ∧
      (Analyze.printSummary K P fopen a chFmt printSequenceMSE bitDepths
        sFilename).file.toList.count '\t' + 1 = fields.length := by
  have hn := Printf.count_newline_eq_zero P hP
  have ht := Printf.count_tab_eq_zero P hP
  by_cases h400 : chFmt = CHROMA_400
  · have hfile : (Analyze.printSummary K P fopen a chFmt printSequenceMSE bitDepths
        sFilename).file =
        "\t ".intercalate (List.map P.f
          (a.getBits * (a.m_dFrmRate / 1000 / Float.ofNat a.m_uiNumPic) ::
            a.getPsnr ComponentID.COMPONENT_Y / Float.ofNat a.getNumPic :: [])) ++ "\n" := by
      simp only [Analyze.printSummary, if_pos h400, hopen, if_true]
      rfl
    refine ⟨⟨?_, ?_⟩, ⟨?_, ?_⟩, _, rfl, ?_, ?_, ?_⟩
    · simp [Analyze.printSummary, h400, hopen]
    · simp [Analyze.printSummary, h400, hopen]
    · simp [Analyze.printSummary, h400, hopen, List.count_append, hn]
    · rw [hfile]
      exact String.getLast_append_newline _
    · rw [if_pos h400]
      exact hfile
    · simp [h400]
    · simp [Analyze.printSummary, h400, hopen, List.count_append, ht]
  · have h3 : chFmt = CHROMA_420 ∨ chFmt = CHROMA_422 ∨ chFmt = CHROMA_444 := by
      rcases hfmt with h | h
      · exact absurd h h400
      · exact h
    cases printSequenceMSE
    · have hfile : (Analyze.printSummary K P fopen a chFmt false bitDepths sFilename).file =
          "\t ".intercalate (List.map P.f
            (a.getBits * (a.m_dFrmRate / 1000 / Float.ofNat a.m_uiNumPic) ::
              a.getPsnr ComponentID.COMPONENT_Y / Float.ofNat a.getNumPic ::
              [a.getPsnr ComponentID.COMPONENT_Cb / Float.ofNat a.getNumPic,
                a.getPsnr ComponentID.COMPONENT_Cr / Float.ofNat a.getNumPic,
                (Analyze.calculateCombinedValues K a chFmt bitDepths).1])) ++ "\n" := by
        simp only [Analyze.printSummary, if_neg h400, if_pos h3, hopen, if_true]
        rfl
      refine ⟨⟨?_, ?_⟩, ⟨?_, ?_⟩, _, rfl, ?_, ?_, ?_⟩
      · simp [Analyze.printSummary, h400, h3, hopen]
      · simp [Analyze.printSummary, h400, h3, hopen]
      · simp [Analyze.printSummary, h400, h3, hopen, List.count_append, hn]
      · rw [hfile]
        exact String.getLast_append_newline _
      · rw [if_neg h400]
        simpa using hfile
      · simp [h400]
      · simp [Analyze.printSummary, h400, h3, hopen, List.count_append, ht]
    · have hfile : (Analyze.printSummary K P fopen a chFmt true bitDepths sFilename).file =
          "\t ".intercalate (List.map P.f
            (a.getBits * (a.m_dFrmRate / 1000 / Float.ofNat a.m_uiNumPic) ::
              a.getPsnr ComponentID.COMPONENT_Y / Float.ofNat a.getNumPic ::
              [a.getPsnr ComponentID.COMPONENT_Cb / Float.ofNat a.getNumPic,
                a.getPsnr ComponentID.COMPONENT_Cr / Float.ofNat a.getNumPic,
                (Analyze.calculateCombinedValues K a chFmt bitDepths).1,
                a.m_MSEyuvframe ComponentID.COMPONENT_Y / Float.ofNat a.getNumPic,
                a.m_MSEyuvframe ComponentID.COMPONENT_Cb / Float.ofNat a.getNumPic,
                a.m_MSEyuvframe ComponentID.COMPONENT_Cr / Float.ofNat a.getNumPic,
                (Analyze.calculateCombinedValues K a chFmt bitDepths).2])) ++ "\n" := by
        simp only [Analyze.printSummary, if_neg h400, if_pos h3, hopen, if_true]
        simp only [String.intercalate, String.intercalate.go, List.map, String.append_assoc]
      refine ⟨⟨?_, ?_⟩, ⟨?_, ?_⟩, _, rfl, ?_, ?_, ?_⟩
      · simp [Analyze.printSummary, h400, h3, hopen]
      · simp [Analyze.printSummary, h400, h3, hopen]
      · simp [Analyze.printSummary, h400, h3, hopen, List.count_append, hn]
      · rw [hfile]
        exact String.getLast_append_newline _
      · rw [if_neg h400]
        simpa using hfile
      · simp [h400]
      · simp [Analyze.printSummary, h400, h3, hopen, List.count_append, ht]

/-- Instance of C7 as amended: the line appended to `summary.txt`, which can
be opened, for 4:2:0 with the sequence MSE. -/
theorem printSummary_appends_one_line_witness :
    (CHROMA_420 = CHROMA_400 ∨ CHROMA_420 = CHROMA_420 ∨ CHROMA_420 = CHROMA_422 ∨
      CHROMA_420 = CHROMA_444) ∧
    (∀ d, '\n' ∉ (samplePrintf.f d).toList ∧ '\t' ∉ (samplePrintf.f d).toList) ∧
    sampleFopen "summary.txt" = true ∧
    (Analyze.printSummary sampleLib samplePrintf sampleFopen sampleAnalyze CHROMA_420 true
      sampleBitDepths "summary.txt").file.toList.count '\n' = 1 ∧
    (Analyze.printSummary sampleLib samplePrintf sampleFopen sampleAnalyze CHROMA_420 true
      sampleBitDepths "summary.txt").file.toList.count '\t' = 8 :=
  have hfmt : CHROMA_420 = CHROMA_400 ∨ CHROMA_420 = CHROMA_420 ∨ CHROMA_420 = CHROMA_422 ∨
      CHROMA_420 = CHROMA_444 := Or.inr (Or.inl rfl)
  have hP : ∀ d, '\n' ∉ (samplePrintf.f d).toList ∧ '\t' ∉ (samplePrintf.f d).toList :=
    by
      intro d
      show '\n' ∉ "0.000000".toList ∧ '\t' ∉ "0.000000".toList
      decide
  have hopen : sampleFopen "summary.txt" = true := by decide
  ⟨hfmt, hP, hopen,
    (printSummary_appends_one_line sampleLib samplePrintf sampleFopen sampleAnalyze CHROMA_420
      true sampleBitDepths "summary.txt" hfmt hP hopen).2.1.1,
    by decide⟩

/-- C7, the claim as stated fails: for 4:2:0 and a file that cannot be opened
(`fopen` gives the null pointer, which `printSummary` does not check) the
call crashes at its first `fprintf` and appends nothing, so the appended text
does not hold exactly one newline. -/
theorem printSummary_unopened_file_appends_nothing :
    sampleFopen "missing/summary.txt" = false ∧
    (Analyze.printSummary sampleLib samplePrintf sampleFopen sampleAnalyze CHROMA_420 true
      sampleBitDepths "missing/summary.txt").crash = true ∧
    (Analyze.printSummary sampleLib samplePrintf sampleFopen sampleAnalyze CHROMA_420 true
      sampleBitDepths "missing/summary.txt").file = "" ∧
    ¬ ((Analyze.printSummary sampleLib samplePrintf sampleFopen sampleAnalyze CHROMA_420 true
      sampleBitDepths "missing/summary.txt").file.toList.count '\n' = 1) := by
  refine ⟨by decide, ?_, ?_, ?_⟩
  · decide
  · decide
  · decide

/-! ## Theorems: option flags -/

/-- C8: `ETO_FORCE_MERGE` is bit 0, `ETO_IMV` is exactly the bits 1 to 3 (it
is `7 << ETO_IMV_SHIFT`), `ETO_DUMMY` is bit 5, and the three masks are
pairwise disjoint. For every forced-merge bit `f`, magnitude `v` in `0..7`
and dummy bit `d`, the packed value
`(f ? ETO_FORCE_MERGE : 0) | (v << ETO_IMV_SHIFT) | (d ? ETO_DUMMY : 0)`
gives back `v`, `f` and `d`, and is not `ETO_INVALID` (all 32 bits set). -/
theorem option_flags_pack_losslessly :
    ((∀ i, ETO_FORCE_MERGE.testBit i = decide (i = 0)) ∧
      (∀ i, ETO_IMV.testBit i = decide (1 ≤ i ∧ i ≤ 3)) ∧
      (∀ i, ETO_DUMMY.testBit i = decide (i = 5)) ∧
      ETO_IMV = 7 <<< ETO_IMV_SHIFT ∧ ETO_INVALID = 2 ^ 32 - 1) ∧
    (ETO_FORCE_MERGE &&& ETO_IMV = 0 ∧ ETO_FORCE_MERGE &&& ETO_DUMMY = 0 ∧
      ETO_IMV &&& ETO_DUMMY = 0) ∧
    ∀ (f d : Bool) (v : Nat), v ≤ 7 →
      ((((if f = true then ETO_FORCE_MERGE else 0) ||| (v <<< ETO_IMV_SHIFT) |||
          (if d = true then ETO_DUMMY else 0)) &&& ETO_IMV) >>> ETO_IMV_SHIFT = v) ∧
      ((((if f = true then ETO_FORCE_MERGE else 0) ||| (v <<< ETO_IMV_SHIFT) |||
          (if d = true then ETO_DUMMY else 0)) &&& ETO_FORCE_MERGE ≠ 0) ↔ f = true) ∧
      ((((if f = true then ETO_FORCE_MERGE else 0) ||| (v <<< ETO_IMV_SHIFT) |||
          (if d = true then ETO_DUMMY else 0)) &&& ETO_DUMMY ≠ 0) ↔ d = true) ∧
      ((if f = true then ETO_FORCE_MERGE else 0) ||| (v <<< ETO_IMV_SHIFT) |||
          (if d = true then ETO_DUMMY else 0)) ≠ ETO_INVALID := by
  have hbits : ∀ (x k : Nat), x < 2 ^ k → ∀ i, k ≤ i → x.testBit i = false := by
    intro x k hx i hi
    exact Nat.testBit_lt_two_pow (lt_of_lt_of_le hx (Nat.pow_le_pow_right (by decide) hi))
  refine ⟨⟨?_, ?_, ?_, rfl, rfl⟩, ⟨by decide, by decide, by decide⟩, ?_⟩
  · intro i
    by_cases hi : i < 6
    · interval_cases i <;> decide
    · rw [hbits ETO_FORCE_MERGE 6 (by decide) i (by omega)]
      exact (decide_eq_false (by omega)).symm
  · intro i
    by_cases hi : i < 6
    · interval_cases i <;> decide
    · rw [hbits ETO_IMV 6 (by decide) i (by omega)]
      exact (decide_eq_false (by omega)).symm
  · intro i
    by_cases hi : i < 6
    · interval_cases i <;> decide
    · rw [hbits ETO_DUMMY 6 (by decide) i (by omega)]
      exact (decide_eq_false (by omega)).symm
  · intro f d v hv
    interval_cases v <;> cases f <;> cases d <;> decide

/-! ## Theorems: the position key of a block -/

theorem toUnsigned_and_mask (x : Int) (k : Nat) (hk : 2 ^ k < 2 ^ 32) :
    toUnsigned x &&& (2 ^ k - 1) = (x % 2 ^ k).toNat := by
  have hk32 : k < 32 := (Nat.pow_lt_pow_iff_right (by decide)).1 hk
  rw [Nat.and_pow_two_sub_one_eq_mod]
  unfold toUnsigned
  have hdvd : ((2 : Int) ^ k) ∣ 2 ^ 32 := pow_dvd_pow 2 (by omega)
  have h1 : (x % 2 ^ 32) % 2 ^ k = x % 2 ^ k := Int.emod_emod_of_dvd x hdvd
  have h2 : 0 ≤ x % 2 ^ 32 := Int.emod_nonneg x (by positivity)
  have h3 : 0 ≤ x % 2 ^ k := Int.emod_nonneg x (by positivity)
  apply Int.ofNat.inj
  show (((x % 2 ^ 32).toNat % 2 ^ k : Nat) : Int) = (((x % 2 ^ k).toNat : Nat) : Int)
  have h4 : (((x % 2 ^ 32).toNat : Nat) : Int) = x % 2 ^ 32 := Int.toNat_of_nonneg h2
  rw [Int.toNat_of_nonneg h3, ← h1, Int.natCast_mod, h4]
  norm_cast

theorem bucket_lt_dim (r k m M : Nat) (hr : r < 2 ^ k) (hle : 2 ^ k ≤ M) (hM : 0 < M >>> m) :
    r >>> m < M >>> m := by
  rw [Nat.shiftRight_eq_div_pow] at hM ⊢
  rw [Nat.shiftRight_eq_div_pow]
  by_cases hkm : k ≤ m
  · have : r < 2 ^ m := lt_of_lt_of_le hr (Nat.pow_le_pow_right (by decide) hkm)
    rw [Nat.div_eq_of_lt this]
    exact hM
  · have hsplit : 2 ^ k = 2 ^ m * 2 ^ (k - m) := by
      rw [← pow_add]
      congr 1
      omega
    have h1 : r / 2 ^ m < 2 ^ (k - m) := Nat.div_lt_of_lt_mul (by rw [← hsplit]; exact hr)
    have h2 : 2 ^ (k - m) ≤ M / 2 ^ m := by
      rw [Nat.le_div_iff_mul_le (by positivity), mul_comm, ← hsplit]
      exact hle
    exact lt_of_lt_of_le h1 h2

/-- C9: for a `PreCalcValues` whose CTU width and height are powers of two
not larger than `MAX_CU_SIZE` (and fit `unsigned`) and whose masks are
width - 1 and height - 1, `getAreaIdx` gives
`idx1 = (area.x mod maxCUWidth) div 2^MIN_CU_LOG2` and
`idx2 = (area.y mod maxCUHeight) div 2^MIN_CU_LOG2`. Two areas whose x (y)
differ by a multiple of the CTU width (height) get the same x (y) bucket, and
both buckets are below `MAX_CU_SIZE >> MIN_CU_LOG2`, the dimension of the
cache tables, whenever that dimension is not zero. -/
theorem getAreaIdx_keys_position_in_ctu (K : CommonLib) (area : Area) (pcv : PreCalcValues)
    (kW kH : Nat)
    (hW : pcv.maxCUWidth = 2 ^ kW) (hH : pcv.maxCUHeight = 2 ^ kH)
    (hW32 : pcv.maxCUWidth < 2 ^ 32) (hH32 : pcv.maxCUHeight < 2 ^ 32)
    (hWle : pcv.maxCUWidth ≤ K.MAX_CU_SIZE) (hHle : pcv.maxCUHeight ≤ K.MAX_CU_SIZE)
    (hWm : pcv.maxCUWidthMask = pcv.maxCUWidth - 1)
    (hHm : pcv.maxCUHeightMask = pcv.maxCUHeight - 1)
    (hDim : 0 < cacheTableDim K) :
    ((getAreaIdx K area pcv).1 = (area.x % (pcv.maxCUWidth : Int)).toNat / 2 ^ K.MIN_CU_LOG2 ∧
      (getAreaIdx K area pcv).2.1 =
        (area.y % (pcv.maxCUHeight : Int)).toNat / 2 ^ K.MIN_CU_LOG2) ∧
    ((getAreaIdx K area pcv).1 < cacheTableDim K ∧
      (getAreaIdx K area pcv).2.1 < cacheTableDim K) ∧
    (∀ (other : Area) (j : Int), other.x = area.x + j * (pcv.maxCUWidth : Int) →
      (getAreaIdx K other pcv).1 = (getAreaIdx K area pcv).1) ∧
    (∀ (other : Area) (j : Int), other.y = area.y + j * (pcv.maxCUHeight : Int) →
      (getAreaIdx K other pcv).2.1 = (getAreaIdx K area pcv).2.1) := by
  have hx : ∀ a : Area, (getAreaIdx K a pcv).1 =
      (a.x % (pcv.maxCUWidth : Int)).toNat / 2 ^ K.MIN_CU_LOG2 := by
    intro a
    show (toUnsigned a.x &&& pcv.maxCUWidthMask) >>> K.MIN_CU_LOG2 = _
    rw [hWm, hW, toUnsigned_and_mask a.x kW (hW ▸ hW32), Nat.shiftRight_eq_div_pow]
    push_cast
    rfl
  have hy : ∀ a : Area, (getAreaIdx K a pcv).2.1 =
      (a.y % (pcv.maxCUHeight : Int)).toNat / 2 ^ K.MIN_CU_LOG2 := by
    intro a
    show (toUnsigned a.y &&& pcv.maxCUHeightMask) >>> K.MIN_CU_LOG2 = _
    rw [hHm, hH, toUnsigned_and_mask a.y kH (hH ▸ hH32), Nat.shiftRight_eq_div_pow]
    push_cast
    rfl
  have hmodlt : ∀ (x : Int) (k : Nat), (x % 2 ^ k).toNat < 2 ^ k := by
    intro x k
    have h1 : x % 2 ^ k < 2 ^ k := Int.emod_lt_of_pos x (by positivity)
    have h2 : 0 ≤ x % 2 ^ k := Int.emod_nonneg x (by positivity)
    have h3 : ((x % 2 ^ k).toNat : Int) < ((2 ^ k : Nat) : Int) := by
      rw [Int.toNat_of_nonneg h2]
      push_cast
      exact h1
    exact Int.ofNat_lt.1 h3
  refine ⟨⟨hx area, hy area⟩, ⟨?_, ?_⟩, ?_, ?_⟩
  · show (toUnsigned area.x &&& pcv.maxCUWidthMask) >>> K.MIN_CU_LOG2 < _
    rw [hWm, hW, toUnsigned_and_mask area.x kW (hW ▸ hW32)]
    exact bucket_lt_dim _ kW _ _ (hmodlt area.x kW) (hW ▸ hWle) hDim
  · show (toUnsigned area.y &&& pcv.maxCUHeightMask) >>> K.MIN_CU_LOG2 < _
    rw [hHm, hH, toUnsigned_and_mask area.y kH (hH ▸ hH32)]
    exact bucket_lt_dim _ kH _ _ (hmodlt area.y kH) (hH ▸ hHle) hDim
  · intro other j hj
    rw [hx other, hx area, hj, Int.add_mul_emod_self]
  · intro other j hj
    rw [hy other, hy area, hj, Int.add_mul_emod_self]

/-- Instance of C9: the block at (200, 72) in a picture with 128x128 coding
tree units on the 4x4 grid has the buckets (18, 18), below the dimension 32. -/
theorem getAreaIdx_keys_position_in_ctu_witness :
    ((getAreaIdx sampleLib sampleCS.areaY sampleCS.pcv).1 =
        (sampleCS.areaY.x % (sampleCS.pcv.maxCUWidth : Int)).toNat / 2 ^ sampleLib.MIN_CU_LOG2 ∧
      (getAreaIdx sampleLib sampleCS.areaY sampleCS.pcv).2.1 =
        (sampleCS.areaY.y % (sampleCS.pcv.maxCUHeight : Int)).toNat /
          2 ^ sampleLib.MIN_CU_LOG2) ∧
    ((getAreaIdx sampleLib sampleCS.areaY sampleCS.pcv).1 < cacheTableDim sampleLib ∧
      (getAreaIdx sampleLib sampleCS.areaY sampleCS.pcv).2.1 < cacheTableDim sampleLib) ∧
    (getAreaIdx sampleLib sampleCS.areaY sampleCS.pcv).1 = 18 ∧
    cacheTableDim sampleLib = 32 :=
  have h := getAreaIdx_keys_position_in_ctu sampleLib sampleCS.areaY sampleCS.pcv 7 7
    (by decide) (by decide) (by decide) (by decide) (by decide) (by decide) (by decide)
    (by decide) (by decide)
  ⟨h.1, h.2.1, by decide, by decide⟩

/-! ## Theorems: heuristic slots -/

theorem static_vector.get_set_self {T : Type} (v : List T) (ft : Int) (x : T)
    (h0 : 0 ≤ ft) (hlt : ft < v.length) :
    ∃ w, static_vector.set v ft x = some w ∧ static_vector.get w ft = some x ∧
      w.length = v.length := by
  have hnat : ft.toNat < v.length := by omega
  refine ⟨v.set ft.toNat x, ?_, ?_, ?_⟩
  · simp [static_vector.set, h0, hnat]
  · simp [static_vector.get, h0, hnat]
  · simp

theorem int_of_int64_of_int (v : Int) (hv : -(2 ^ 31) ≤ v ∧ v < 2 ^ 31) :
    (v + 2 ^ 31) % 2 ^ 32 - 2 ^ 31 = v := by
  omega

theorem unsigned_of_int64_of_unsigned (v : Int) (hv : 0 ≤ v ∧ v < 2 ^ 32) :
    v % 2 ^ 32 = v := by
  omega

theorem ComprCUCtx.create_slots (K : CommonLib) (cs : CodingStructure)
    (minDepth maxDepth numExtraFeatures : Nat) :
    (ComprCUCtx.create K cs minDepth maxDepth numExtraFeatures).extraFeatures.length =
      numExtraFeatures ∧
    (ComprCUCtx.create K cs minDepth maxDepth numExtraFeatures).extraFeaturesd.length =
      numExtraFeatures := by
  simp [ComprCUCtx.create, static_vector.resize]

/-- C10: on a context whose two slot banks hold `numExtraFeatures` slots
(as the constructor leaves them), for every slot index
`0 <= ft < numExtraFeatures`, every slot type `T` among `double`, `bool`,
`int`, `unsigned`, `int64_t` and every value `v` of `T`: `set(ft, v)` is an
access inside the bank and a following `get<T>(ft)` is inside the bank too
and returns `v`. -/
theorem slot_set_get_round_trip (c : ComprCUCtx) (numExtraFeatures : Nat)
    (hi : c.extraFeatures.length = numExtraFeatures)
    (hd : c.extraFeaturesd.length = numExtraFeatures)
    (ft : Int) (h0 : 0 ≤ ft) (hlt : ft < numExtraFeatures)
    (T : SlotType) (v : T.Val) (hv : T.Holds v) :
    ∃ c1, c.set T ft v = some c1 ∧ c1.get T ft = some v ∧
      c1.extraFeatures.length = numExtraFeatures ∧
      c1.extraFeaturesd.length = numExtraFeatures := by
  cases T with
  | double =>
    obtain ⟨w, hset, hget, hlen⟩ :=
      static_vector.get_set_self c.extraFeaturesd ft v h0 (by rw [hd]; exact hlt)
    refine ⟨{ c with extraFeaturesd := w }, ?_, ?_, hi, ?_⟩
    · simp [ComprCUCtx.set, hset]
    · simp [ComprCUCtx.get, hget]
    · simp [hlen, hd]
  | bool =>
    obtain ⟨w, hset, hget, hlen⟩ := static_vector.get_set_self c.extraFeatures ft
      (if v = true then 1 else 0) h0 (by rw [hi]; exact hlt)
    refine ⟨{ c with extraFeatures := w }, ?_, ?_, ?_, hd⟩
    · simp [ComprCUCtx.set, hset]
    · cases v <;> simp [ComprCUCtx.get, hget]
    · simp [hlen, hi]
  | int =>
    obtain ⟨w, hset, hget, hlen⟩ :=
      static_vector.get_set_self c.extraFeatures ft v h0 (by rw [hi]; exact hlt)
    have hconv : (v + 2 ^ 31) % 2 ^ 32 - 2 ^ 31 = v := int_of_int64_of_int v hv
    refine ⟨{ c with extraFeatures := w }, ?_, ?_, ?_, hd⟩
    · simp [ComprCUCtx.set, hset]
    · simp only [ComprCUCtx.get, hget, Option.map_some', hconv]
    · simp [hlen, hi]
  | unsigned =>
    obtain ⟨w, hset, hget, hlen⟩ :=
      static_vector.get_set_self c.extraFeatures ft v h0 (by rw [hi]; exact hlt)
    have hconv : v % 2 ^ 32 = v := unsigned_of_int64_of_unsigned v hv
    refine ⟨{ c with extraFeatures := w }, ?_, ?_, ?_, hd⟩
    · simp [ComprCUCtx.set, hset]
    · simp only [ComprCUCtx.get, hget, Option.map_some', hconv]
    · simp [hlen, hi]
  | int64_t =>
    obtain ⟨w, hset, hget, hlen⟩ :=
      static_vector.get_set_self c.extraFeatures ft v h0 (by rw [hi]; exact hlt)
    refine ⟨{ c with extraFeatures := w }, ?_, ?_, ?_, hd⟩
    · simp [ComprCUCtx.set, hset]
    · simp [ComprCUCtx.get, hget]
    · simp [hlen, hi]

/-- Instance of C10: on the context built with 20 slots, the `int` value -7
written to slot 19 is read back from slot 19. -/
theorem slot_set_get_round_trip_witness :
    (0 : Int) ≤ 19 ∧ (19 : Int) < (20 : Nat) ∧ SlotType.Holds SlotType.int (-7) ∧
    ∃ c1, sampleCtx.set SlotType.int 19 (-7) = some c1 ∧
      c1.get SlotType.int 19 = some (-7) ∧
      c1.extraFeatures.length = 20 ∧ c1.extraFeaturesd.length = 20 :=
  have hv : SlotType.Holds SlotType.int (-7) := by
    show -(2 ^ 31) ≤ (-7 : Int) ∧ (-7 : Int) < 2 ^ 31
    decide
  ⟨by decide, by decide, hv,
    slot_set_get_round_trip sampleCtx 20
      (ComprCUCtx.create_slots sampleLib sampleCS 0 3 20).1
      (ComprCUCtx.create_slots sampleLib sampleCS 0 3 20).2
      19 (by decide) (by decide) SlotType.int (-7) hv⟩

/-! ## Theorems: the statistics accumulator -/

theorem Analyze.clear_fields (a : Analyze) :
    (Analyze.clear a).m_dAddBits = 0 ∧ (Analyze.clear a).m_uiNumPic = 0 ∧
    (Analyze.clear a).m_dFrmRate = a.m_dFrmRate ∧
    (∀ c, (Analyze.clear a).m_dPSNRSum c = 0) ∧
    (∀ c, (Analyze.clear a).m_MSEyuvframe c = 0) := by
  refine ⟨rfl, rfl, rfl, ?_, ?_⟩
  · intro c
    cases c <;> simp [Analyze.clear, ComponentID.all]
  · intro c
    cases c <;> simp [Analyze.clear, ComponentID.all]

theorem Analyze.addResult_fields (a : Analyze) (psnr : ComponentID → Float) (bits : Float)
    (mse : ComponentID → Float) :
    (a.addResult psnr bits mse).m_dAddBits = a.m_dAddBits + bits ∧
    (a.addResult psnr bits mse).m_uiNumPic = (a.m_uiNumPic + 1) % 2 ^ 32 ∧
    (a.addResult psnr bits mse).m_dFrmRate = a.m_dFrmRate ∧
    (∀ c, (a.addResult psnr bits mse).m_dPSNRSum c = a.m_dPSNRSum c + psnr c) ∧
    (∀ c, (a.addResult psnr bits mse).m_MSEyuvframe c = a.m_MSEyuvframe c + mse c) := by
  refine ⟨rfl, rfl, rfl, ?_, ?_⟩
  · intro c
    cases c <;> simp [Analyze.addResult, ComponentID.all]
  · intro c
    cases c <;> simp [Analyze.addResult, ComponentID.all]

theorem Analyze.addResults_cons (a : Analyze) (r : Analyze.Result) (rs : List Analyze.Result) :
    a.addResults (r :: rs) = (a.addResult r.psnr r.bits r.MSEyuvframe).addResults rs := by
  simp [Analyze.addResults]

theorem Analyze.addResults_bits (rs : List Analyze.Result) :
    ∀ a : Analyze, (a.addResults rs).m_dAddBits =
      (rs.map (fun r => r.bits)).foldl (fun x y => x + y) a.m_dAddBits := by
  induction rs with
  | nil => intro a; rfl
  | cons r rs ih =>
    intro a
    rw [Analyze.addResults_cons, ih, (Analyze.addResult_fields a _ _ _).1]
    rfl

theorem Analyze.addResults_psnr (c : ComponentID) (rs : List Analyze.Result) :
    ∀ a : Analyze, (a.addResults rs).m_dPSNRSum c =
      (rs.map (fun r => r.psnr c)).foldl (fun x y => x + y) (a.m_dPSNRSum c) := by
  induction rs with
  | nil => intro a; rfl
  | cons r rs ih =>
    intro a
    rw [Analyze.addResults_cons, ih, (Analyze.addResult_fields a _ _ _).2.2.2.1 c]
    rfl

theorem Analyze.addResults_mse (c : ComponentID) (rs : List Analyze.Result) :
    ∀ a : Analyze, (a.addResults rs).m_MSEyuvframe c =
      (rs.map (fun r => r.MSEyuvframe c)).foldl (fun x y => x + y) (a.m_MSEyuvframe c) := by
  induction rs with
  | nil => intro a; rfl
  | cons r rs ih =>
    intro a
    rw [Analyze.addResults_cons, ih, (Analyze.addResult_fields a _ _ _).2.2.2.2 c]
    rfl

theorem Analyze.addResults_numPic (rs : List Analyze.Result) :
    ∀ a : Analyze, a.m_uiNumPic < 2 ^ 32 →
      (a.addResults rs).m_uiNumPic = (a.m_uiNumPic + rs.length) % 2 ^ 32 := by
  induction rs with
  | nil =>
    intro a ha
    show a.m_uiNumPic = (a.m_uiNumPic + 0) % 2 ^ 32
    omega
  | cons r rs ih =>
    intro a _
    have hlt : (a.addResult r.psnr r.bits r.MSEyuvframe).m_uiNumPic < 2 ^ 32 := by
      rw [(Analyze.addResult_fields a _ _ _).2.1]
      omega
    rw [Analyze.addResults_cons, ih _ hlt, (Analyze.addResult_fields a _ _ _).2.1,
      List.length_cons]
    omega

/-- C11: starting from a cleared accumulator (a new one, or any one after
`clear()`), after the calls `addResult(psnr_i, bits_i, mse_i)` for the `k`
results `rs` in order: `getNumPic()` is `k` modulo `2^32`, `getBits()` is the
sum of the `bits_i`, and for every component `getPsnr(c)` is the sum of the
`psnr_i[c]` (the running sum, not a mean) and the stored MSE sum is the sum of
the `mse_i[c]`, each sum starting at 0 and adding in call order; with no call
all of them are 0. -/
theorem addResult_accumulates_sums (a0 : Analyze) (rs : List Analyze.Result) :
    (((Analyze.clear a0).addResults rs).getNumPic = rs.length % 2 ^ 32 ∧
      ((Analyze.clear a0).addResults rs).getBits =
        (rs.map (fun r => r.bits)).foldl (fun x y => x + y) 0 ∧
      (∀ c, ((Analyze.clear a0).addResults rs).getPsnr c =
        (rs.map (fun r => r.psnr c)).foldl (fun x y => x + y) 0) ∧
      (∀ c, ((Analyze.clear a0).addResults rs).m_MSEyuvframe c =
        (rs.map (fun r => r.MSEyuvframe c)).foldl (fun x y => x + y) 0)) ∧
    ((Analyze.clear a0).getNumPic = 0 ∧ (Analyze.clear a0).getBits = 0 ∧
      (∀ c, (Analyze.clear a0).getPsnr c = 0) ∧
      (∀ c, (Analyze.clear a0).m_MSEyuvframe c = 0)) := by
  obtain ⟨hbits, hnum, _, hpsnr, hmse⟩ := Analyze.clear_fields a0
  refine ⟨⟨?_, ?_, ?_, ?_⟩, ⟨hnum, hbits, hpsnr, hmse⟩⟩
  · show ((Analyze.clear a0).addResults rs).m_uiNumPic = _
    rw [Analyze.addResults_numPic rs _ (by rw [hnum]; decide), hnum, Nat.zero_add]
  · show ((Analyze.clear a0).addResults rs).m_dAddBits = _
    rw [Analyze.addResults_bits, hbits]
  · intro c
    show ((Analyze.clear a0).addResults rs).m_dPSNRSum c = _
    rw [Analyze.addResults_psnr, hpsnr c]
  · intro c
    rw [Analyze.addResults_mse, hmse c]

/-- Instance of C11 at the results of two pictures: the sums are the two
values added to 0 in call order. -/
theorem addResult_accumulates_sums_witness :
    ((Analyze.clear sampleAnalyze).addResults sampleResults).getNumPic = 2 ∧
    ((Analyze.clear sampleAnalyze).addResults sampleResults).getBits = 0 + 60000 + 50000 ∧
    ((Analyze.clear sampleAnalyze).addResults sampleResults).getPsnr ComponentID.COMPONENT_Cb =
      0 + 40.0 + 41.5 :=
  ⟨(addResult_accumulates_sums sampleAnalyze sampleResults).1.1,
    (addResult_accumulates_sums sampleAnalyze sampleResults).1.2.1,
    (addResult_accumulates_sums sampleAnalyze sampleResults).1.2.2.1 ComponentID.COMPONENT_Cb⟩

/-! ## Theorems: classes of candidate modes -/

theorem type_beyond_enumerators (t : Nat) (h : 14 ≤ t) :
    t ≠ 5 ∧ t ≠ 6 ∧ t ≠ 7 ∧ t ≠ 8 ∧ t ≠ 9 ∧ t ≠ 10 := by
  omega

/-- C12: every candidate mode is in exactly one of the three classes split
(`isModeSplit`), unsplit coding (`isModeNoSplit`) and the post-split sentinel
(type `ETM_POST_DONT_SPLIT`). `isModeSplit` holds exactly for the five split
kinds; `getPartSplit` gives `CU_DONT_SPLIT` if and only if `isModeSplit` is
false; it maps the five split kinds to five pairwise distinct partition
splits; and `isModeInter` implies `isModeNoSplit`. -/
theorem mode_classes_partition (m : EncTestMode) :
    ((isModeSplit m = true ∧ isModeNoSplit m = false ∧ m.type ≠ ETM_POST_DONT_SPLIT) ∨
      (isModeSplit m = false ∧ isModeNoSplit m = true ∧ m.type ≠ ETM_POST_DONT_SPLIT) ∨
      (isModeSplit m = false ∧ isModeNoSplit m = false ∧ m.type = ETM_POST_DONT_SPLIT)) ∧
    (isModeSplit m = true ↔
      m.type = ETM_SPLIT_QT ∨ m.type = ETM_SPLIT_BT_H ∨ m.type = ETM_SPLIT_BT_V ∨
        m.type = ETM_SPLIT_TT_H ∨ m.type = ETM_SPLIT_TT_V) ∧
    (getPartSplit m = PartSplit.CU_DONT_SPLIT ↔ isModeSplit m = false) ∧
    ((m.type = ETM_SPLIT_QT → getPartSplit m = PartSplit.CU_QUAD_SPLIT) ∧
      (m.type = ETM_SPLIT_BT_H → getPartSplit m = PartSplit.CU_HORZ_SPLIT) ∧
      (m.type = ETM_SPLIT_BT_V → getPartSplit m = PartSplit.CU_VERT_SPLIT) ∧
      (m.type = ETM_SPLIT_TT_H → getPartSplit m = PartSplit.CU_TRIH_SPLIT) ∧
      (m.type = ETM_SPLIT_TT_V → getPartSplit m = PartSplit.CU_TRIV_SPLIT) ∧
      [PartSplit.CU_QUAD_SPLIT, PartSplit.CU_HORZ_SPLIT, PartSplit.CU_VERT_SPLIT,
        PartSplit.CU_TRIH_SPLIT, PartSplit.CU_TRIV_SPLIT].Nodup) ∧
    (∀ m2 : EncTestMode, isModeSplit m = true → isModeSplit m2 = true →
      getPartSplit m = getPartSplit m2 → m.type = m2.type) ∧
    (isModeInter m = true → isModeNoSplit m = true) := by
  have key : ∀ t : Nat, t < 14 ∨ 14 ≤ t := fun t => Nat.lt_or_ge t 14
  obtain ⟨t, o, ps, q, l⟩ := m
  refine ⟨?_, ?_, ?_, ⟨?_, ?_, ?_, ?_, ?_, by decide⟩, ?_, ?_⟩
  · simp only [isModeSplit, isModeNoSplit, ETM_SPLIT_QT, ETM_SPLIT_BT_H, ETM_SPLIT_BT_V,
      ETM_SPLIT_TT_H, ETM_SPLIT_TT_V, ETM_POST_DONT_SPLIT]
    rcases key t with h | h
    · interval_cases t <;> simp
    · obtain ⟨h5, h6, h7, h8, h9, h10⟩ := type_beyond_enumerators t h
      simp [h5, h6, h7, h8, h9, h10]
  · simp [isModeSplit]
  · simp only [isModeSplit, getPartSplit, ETM_SPLIT_QT, ETM_SPLIT_BT_H, ETM_SPLIT_BT_V,
      ETM_SPLIT_TT_H, ETM_SPLIT_TT_V]
    rcases key t with h | h
    · interval_cases t <;> simp
    · obtain ⟨h5, h6, h7, h8, h9, _⟩ := type_beyond_enumerators t h
      simp [h5, h6, h7, h8, h9]
  · intro h
    simp only at h
    subst h
    rfl
  · intro h
    simp only at h
    subst h
    rfl
  · intro h
    simp only at h
    subst h
    rfl
  · intro h
    simp only at h
    subst h
    rfl
  · intro h
    simp only at h
    subst h
    rfl
  · rintro ⟨t2, o2, ps2, q2, l2⟩
    simp only [isModeSplit, getPartSplit, ETM_SPLIT_QT, ETM_SPLIT_BT_H, ETM_SPLIT_BT_V,
      ETM_SPLIT_TT_H, ETM_SPLIT_TT_V]
    intro h1 h2
    have ht : t = 5 ∨ t = 6 ∨ t = 7 ∨ t = 8 ∨ t = 9 := by
      by_contra hc
      simp [hc] at h1
    have ht2 : t2 = 5 ∨ t2 = 6 ∨ t2 = 7 ∨ t2 = 8 ∨ t2 = 9 := by
      by_contra hc
      simp [hc] at h2
    rcases ht with rfl | rfl | rfl | rfl | rfl <;>
      rcases ht2 with rfl | rfl | rfl | rfl | rfl <;> simp
  · simp only [isModeInter, isModeSplit, isModeNoSplit, ETM_SPLIT_QT, ETM_SPLIT_BT_H,
      ETM_SPLIT_BT_V, ETM_SPLIT_TT_H, ETM_SPLIT_TT_V, ETM_POST_DONT_SPLIT, ETM_INTER_ME,
      ETM_MERGE_SKIP, ETM_AFFINE]
    intro h
    have ht : (t = 1 ∨ t = 0) ∨ t = 2 := by
      simpa using h
    rcases ht with (rfl | rfl) | rfl <;> simp

/-! ## Theorems: a new search context -/

/-- C13: the context that the constructor
`ComprCUCtx( cs, minDepth, maxDepth, numExtraFeatures )` builds, with
`numExtraFeatures <= 30`, is idle: it has the given depth bounds, an empty
candidate queue, the early-skip flag false, null best-CS, best-CU and best-TU
pointers, exactly `numExtraFeatures` integer slots all 0 and
`numExtraFeatures` floating slots all 0.0, `bestInterCost` and the first-pass
EMT cost at `MAX_DOUBLE`, skip-second-EMT-pass false, `interHad` at the
maximum distortion value, the parallel-level flag false, and `lastTestMode`
the invalid mode (type `ETM_INVALID`, opts `ETO_INVALID`, part size
`NUMBER_OF_PART_SIZES`, qp -1, not lossless), which is neither a split mode
nor an inter mode. -/
theorem new_context_is_idle (K : CommonLib) (cs : CodingStructure)
    (minDepth maxDepth numExtraFeatures : Nat) (hcap : numExtraFeatures ≤ 30) :
    ((ComprCUCtx.create K cs minDepth maxDepth numExtraFeatures).minDepth = minDepth ∧
      (ComprCUCtx.create K cs minDepth maxDepth numExtraFeatures).maxDepth = maxDepth ∧
      (ComprCUCtx.create K cs minDepth maxDepth numExtraFeatures).testModes = [] ∧
      (ComprCUCtx.create K cs minDepth maxDepth numExtraFeatures).earlySkip = false ∧
      (ComprCUCtx.create K cs minDepth maxDepth numExtraFeatures).bestCS = none ∧
      (ComprCUCtx.create K cs minDepth maxDepth numExtraFeatures).bestCU = none ∧
      (ComprCUCtx.create K cs minDepth maxDepth numExtraFeatures).bestTU = none) ∧
    ((ComprCUCtx.create K cs minDepth maxDepth numExtraFeatures).extraFeatures =
        List.replicate numExtraFeatures 0 ∧
      (ComprCUCtx.create K cs minDepth maxDepth numExtraFeatures).extraFeaturesd =
        List.replicate numExtraFeatures 0.0 ∧
      (ComprCUCtx.create K cs minDepth maxDepth numExtraFeatures).extraFeatures.length =
        numExtraFeatures ∧
      (ComprCUCtx.create K cs minDepth maxDepth numExtraFeatures).extraFeaturesd.length =
        numExtraFeatures ∧
      (ComprCUCtx.create K cs minDepth maxDepth numExtraFeatures).extraFeatures.length ≤ 30) ∧
    ((ComprCUCtx.create K cs minDepth maxDepth numExtraFeatures).bestInterCost = K.MAX_DOUBLE ∧
      (ComprCUCtx.create K cs minDepth maxDepth numExtraFeatures).bestEmtSize2Nx2N1stPass =
        K.MAX_DOUBLE ∧
      (ComprCUCtx.create K cs minDepth maxDepth numExtraFeatures).skipSecondEMTPass = false ∧
      (ComprCUCtx.create K cs minDepth maxDepth numExtraFeatures).interHad = K.maxDistortion ∧
      (ComprCUCtx.create K cs minDepth maxDepth numExtraFeatures).isLevelSplitParallel =
        false) ∧
    ((ComprCUCtx.create K cs minDepth maxDepth numExtraFeatures).lastTestMode =
        { type := ETM_INVALID, opts := ETO_INVALID, partSize := K.NUMBER_OF_PART_SIZES,
          qp := -1, lossless := false } ∧
      isModeSplit (ComprCUCtx.create K cs minDepth maxDepth numExtraFeatures).lastTestMode =
        false ∧
      isModeInter (ComprCUCtx.create K cs minDepth maxDepth numExtraFeatures).lastTestMode =
        false) := by
  have hlen := ComprCUCtx.create_slots K cs minDepth maxDepth numExtraFeatures
  refine ⟨⟨rfl, rfl, rfl, rfl, rfl, rfl, rfl⟩, ⟨?_, ?_, hlen.1, hlen.2, ?_⟩,
    ⟨rfl, rfl, rfl, rfl, rfl⟩, ⟨rfl, rfl, rfl⟩⟩
  · simp [ComprCUCtx.create, static_vector.resize]
  · simp [ComprCUCtx.create, static_vector.resize]
  · rw [hlen.1]
    exact hcap

/-- Instance of C13 at the context built with 20 slots. -/
theorem new_context_is_idle_witness :
    20 ≤ 30 ∧ sampleCtx.testModes = [] ∧ sampleCtx.extraFeatures = List.replicate 20 0 ∧
    sampleCtx.lastTestMode.type = ETM_INVALID ∧ isModeSplit sampleCtx.lastTestMode = false :=
  have h := new_context_is_idle sampleLib sampleCS 0 3 20 (by decide)
  ⟨by decide, h.1.2.2.1, h.2.1.1, congrArg EncTestMode.type h.2.2.2.1, h.2.2.2.2.1⟩

/-! ## Theorems: the PSNR peak value -/

theorem shlToUInt32_exact (d : Int) (h8 : 8 ≤ d) (h31 : d ≤ 31) :
    shlToUInt32 255 (d - 8) = 255 * 2 ^ (d - 8).toNat := by
  unfold shlToUInt32
  apply Nat.mod_eq_of_lt
  have hs : (d - 8).toNat ≤ 23 := by omega
  calc 255 * 2 ^ (d - 8).toNat ≤ 255 * 2 ^ 23 :=
        Nat.mul_le_mul_left 255 (Nat.pow_le_pow_right (by decide) hs)
    _ < 2 ^ 32 := by decide

theorem Analyze.calculateCombinedValues_psnr (K : CommonLib) (a : Analyze)
    (chFmt : ChromaFormat) (bitDepths : BitDepths) :
    (Analyze.calculateCombinedValues K a chFmt bitDepths).1 =
      if (Analyze.calculateCombinedValues K a chFmt bitDepths).2 == 0 then 999.99
      else 10.0 * Float.log10
        (Float.ofNat
          ((shlToUInt32 255
              (max (bitDepths.recon ChannelType.CHANNEL_TYPE_LUMA)
                (bitDepths.recon ChannelType.CHANNEL_TYPE_CHROMA) - 8) *
            shlToUInt32 255
              (max (bitDepths.recon ChannelType.CHANNEL_TYPE_LUMA)
                (bitDepths.recon ChannelType.CHANNEL_TYPE_CHROMA) - 8)) % 2 ^ 32) /
          (Analyze.calculateCombinedValues K a chFmt bitDepths).2) := by
  have hmax : (if bitDepths.recon ChannelType.CHANNEL_TYPE_CHROMA >
        bitDepths.recon ChannelType.CHANNEL_TYPE_LUMA
      then bitDepths.recon ChannelType.CHANNEL_TYPE_CHROMA
      else bitDepths.recon ChannelType.CHANNEL_TYPE_LUMA) =
      max (bitDepths.recon ChannelType.CHANNEL_TYPE_LUMA)
        (bitDepths.recon ChannelType.CHANNEL_TYPE_CHROMA) := by
    split <;> omega
  simp only [Analyze.calculateCombinedValues, hmax]

/-- C15: for a reconstruction bit depth `d >= 8` (and at most 31, so that the
shift is defined on `int`) the peak value is
`maxval = 255 << (d - 8) = 255 * 2^(d-8)`: 1020 for `d = 10` and 4080 for
`d = 12`, not 1023 and 4095, and it is the true maximum sample value `2^d - 1`
if and only if `d = 8`. In `printOut` the bit depth of a component is the one
of its channel type; in `calculateCombinedValues` `d` is the larger of the
reconstruction bit depths of the two channel types. -/
theorem peak_value_is_255_shifted (K : CommonLib) (a : Analyze) (chFmt : ChromaFormat)
    (bitDepths : BitDepths) (dScale : Float) (compID : ComponentID) (d : Int)
    (h8 : 8 ≤ d) (h31 : d ≤ 31) :
    (shlToUInt32 255 (d - 8) = 255 * 2 ^ (d - 8).toNat ∧
      (shlToUInt32 255 (d - 8) = 2 ^ d.toNat - 1 ↔ d = 8)) ∧
    (shlToUInt32 255 (10 - 8) = 1020 ∧ shlToUInt32 255 (12 - 8) = 4080 ∧
      shlToUInt32 255 (10 - 8) ≠ 2 ^ 10 - 1 ∧ shlToUInt32 255 (12 - 8) ≠ 2 ^ 12 - 1) ∧
    (a.getNumPic ≠ 0 → (a.m_MSEyuvframe compID == 0) = false →
      Analyze.mseBasedSNR K a bitDepths dScale compID =
        10.0 * Float.log10
          (Float.ofNat
            ((shlToUInt32 255 (bitDepths.recon (K.toChannelType compID) - 8) *
              shlToUInt32 255 (bitDepths.recon (K.toChannelType compID) - 8)) % 2 ^ 32) /
            (a.m_MSEyuvframe compID / Float.ofNat a.getNumPic))) ∧
    (((Analyze.calculateCombinedValues K a chFmt bitDepths).2 == 0) = false →
      (Analyze.calculateCombinedValues K a chFmt bitDepths).1 =
        10.0 * Float.log10
          (Float.ofNat
            ((shlToUInt32 255
                (max (bitDepths.recon ChannelType.CHANNEL_TYPE_LUMA)
                  (bitDepths.recon ChannelType.CHANNEL_TYPE_CHROMA) - 8) *
              shlToUInt32 255
                (max (bitDepths.recon ChannelType.CHANNEL_TYPE_LUMA)
                  (bitDepths.recon ChannelType.CHANNEL_TYPE_CHROMA) - 8)) % 2 ^ 32) /
            (Analyze.calculateCombinedValues K a chFmt bitDepths).2)) := by
  have hexact := shlToUInt32_exact d h8 h31
  refine ⟨⟨hexact, ?_⟩, ⟨by decide, by decide, by decide, by decide⟩, ?_, ?_⟩
  · rw [hexact]
    obtain ⟨s, hs⟩ : ∃ s : Nat, d = 8 + (s : Int) := ⟨(d - 8).toNat, by omega⟩
    subst hs
    have h1 : (8 + (s : Int) - 8).toNat = s := by omega
    have h2 : (8 + (s : Int)).toNat = 8 + s := by omega
    rw [h1, h2, pow_add]
    have hpos : 1 ≤ 2 ^ s := Nat.one_le_two_pow
    constructor
    · intro h
      have hs1 : 2 ^ s = 1 := by
        have h256 : (2 : Nat) ^ 8 = 256 := by decide
        rw [h256] at h
        omega
      have hs0 : s = 0 := by
        by_contra hne
        have : 2 ≤ 2 ^ s := by
          calc 2 = 2 ^ 1 := by decide
            _ ≤ 2 ^ s := Nat.pow_le_pow_right (by decide) (by omega)
        omega
      omega
    · intro h
      have hs0 : s = 0 := by omega
      subst hs0
      decide
  · intro hn hm
    simp only [Analyze.mseBasedSNR, if_neg hn, hm, Bool.false_eq_true, if_false]
  · intro hm
    rw [Analyze.calculateCombinedValues_psnr, hm]
    simp

/-- Instance of C15 at bit depth 10. -/
theorem peak_value_is_255_shifted_witness :
    (8 : Int) ≤ 10 ∧ (10 : Int) ≤ 31 ∧
    shlToUInt32 255 (10 - 8) = 255 * 2 ^ ((10 : Int) - 8).toNat ∧
    (shlToUInt32 255 (10 - 8) = 2 ^ (10 : Int).toNat - 1 ↔ (10 : Int) = 8) :=
  ⟨by decide, by decide,
    (peak_value_is_255_shifted sampleLib sampleAnalyze CHROMA_420 sampleBitDepths 1
      ComponentID.COMPONENT_Y 10 (by decide) (by decide)).1⟩

/-! ## Theorems: the mode recorded in a coding structure -/

theorem doubleToUnsigned_lt (x : Float) : doubleToUnsigned x < 2 ^ 32 :=
  x.toUInt32.val.isLt

theorem unsignedToInt_eq_neg_one_iff (u : Nat) (hu : u < 2 ^ 32) :
    unsignedToInt u = -1 ↔ u = 2 ^ 32 - 1 := by
  unfold unsignedToInt
  omega

theorem unsignedToInt_of_lt (u : Nat) (hu : u < 2 ^ 31) : unsignedToInt u = (u : Int) := by
  unfold unsignedToInt
  omega

/-- C16 (the code on every coding structure): `getCSEncMode` passes its three
arguments to the constructor `EncTestMode( _type, _qp, _lossless )`. The type
is the recorded type, but the part size is always `SIZE_2Nx2N` and the
options are always `ETO_STANDARD`. The recorded part size `p` ends up in `qp`,
converted to `int`: `qp` is `p` itself for `p < 2^31`, and it is -1 only for
`p = 4294967295`. `lossless` is set exactly when the recorded options are not
0. So a recorded part size other than `SIZE_2Nx2N` is not returned as part
size, and recorded options other than 0 are not returned as options and make
the mode lossless. -/
theorem getCSEncMode_uses_three_argument_constructor (K : CommonLib)
    (features : EncFeature → Float) :
    ((getCSEncMode K features).type =
        doubleToUnsigned (features EncFeature.ENC_FT_ENC_MODE_TYPE) ∧
      (getCSEncMode K features).partSize = K.SIZE_2Nx2N ∧
      (getCSEncMode K features).opts = ETO_STANDARD ∧
      (getCSEncMode K features).qp =
        unsignedToInt (doubleToUnsigned (features EncFeature.ENC_FT_ENC_MODE_PART)) ∧
      ((getCSEncMode K features).lossless = true ↔
        doubleToUnsigned (features EncFeature.ENC_FT_ENC_MODE_OPTS) ≠ 0)) ∧
    ((doubleToUnsigned (features EncFeature.ENC_FT_ENC_MODE_PART) < 2 ^ 31 →
        (getCSEncMode K features).qp =
          ((doubleToUnsigned (features EncFeature.ENC_FT_ENC_MODE_PART) : Nat) : Int)) ∧
      ((getCSEncMode K features).qp = -1 ↔
        doubleToUnsigned (features EncFeature.ENC_FT_ENC_MODE_PART) = 2 ^ 32 - 1)) ∧
    ((doubleToUnsigned (features EncFeature.ENC_FT_ENC_MODE_PART) ≠ K.SIZE_2Nx2N →
        (getCSEncMode K features).partSize ≠
          doubleToUnsigned (features EncFeature.ENC_FT_ENC_MODE_PART)) ∧
      (doubleToUnsigned (features EncFeature.ENC_FT_ENC_MODE_OPTS) ≠ 0 →
        (getCSEncMode K features).opts ≠
            doubleToUnsigned (features EncFeature.ENC_FT_ENC_MODE_OPTS) ∧
          (getCSEncMode K features).lossless = true)) := by
  have hl : (getCSEncMode K features).lossless = true ↔
      doubleToUnsigned (features EncFeature.ENC_FT_ENC_MODE_OPTS) ≠ 0 := by
    simp [getCSEncMode, EncTestMode.fromTypeQpLossless]
  refine ⟨⟨rfl, rfl, rfl, rfl, hl⟩, ⟨?_, ?_⟩, ⟨?_, ?_⟩⟩
  · intro hp
    exact unsignedToInt_of_lt _ hp
  · exact unsignedToInt_eq_neg_one_iff _ (doubleToUnsigned_lt _)
  · intro hp heq
    exact hp heq.symm
  · intro ho
    refine ⟨fun heq => ho ?_, hl.2 ho⟩
    exact heq.symm.trans rfl

/-! ## Theorems: independence of the two slot banks -/

theorem static_vector.get_set_other {T : Type} (v : List T) (ft : Int) (x : T)
    (h0 : 0 ≤ ft) (hlt : ft < v.length) :
    ∃ w, static_vector.set v ft x = some w ∧
      ∀ g : Int, g ≠ ft → static_vector.get w g = static_vector.get v g := by
  have hnat : ft.toNat < v.length := by omega
  refine ⟨v.set ft.toNat x, ?_, ?_⟩
  · simp [static_vector.set, h0, hnat]
  · intro g hg
    unfold static_vector.get
    by_cases hg0 : 0 ≤ g
    · have hne : ft.toNat ≠ g.toNat := by omega
      simp [hg0, List.getElem?_set_ne hne]
    · simp [hg0]

theorem ComprCUCtx.set_int_frame (c : ComprCUCtx) (ft : Int) (x : Int)
    (h0 : 0 ≤ ft) (hlt : ft < c.extraFeatures.length) :
    ∃ w, static_vector.set c.extraFeatures ft x = some w ∧
      (∀ g, ({ c with extraFeatures := w } : ComprCUCtx).get SlotType.double g =
        c.get SlotType.double g) ∧
      (∀ g, g ≠ ft → ∀ T2, ({ c with extraFeatures := w } : ComprCUCtx).get T2 g =
        c.get T2 g) := by
  obtain ⟨w, hset, hother⟩ := static_vector.get_set_other c.extraFeatures ft x h0 hlt
  refine ⟨w, hset, fun g => rfl, fun g hg T2 => ?_⟩
  cases T2 <;> simp [ComprCUCtx.get, hother g hg]

/-- C17: on a context whose two slot banks hold `numExtraFeatures` slots, for
a slot index `0 <= ft < numExtraFeatures` and every index `g`: `set(ft, v)`
with `v` of an integer type (`bool`, `int`, `unsigned`, `int64_t`) leaves
`get<double>(g)` as it was, also for `g = ft`, and leaves `get<T>(g)` as it
was for every `T` when `g != ft`; `set(ft, d)` with a `double` leaves every
integer-typed `get<T>(g)` as it was, also for `g = ft`, and leaves
`get<double>(g)` as it was when `g != ft`. So after a write with an integer
type, `get<double>` of the same index still returns the floating value that
slot held before. -/
theorem slot_banks_are_independent (c : ComprCUCtx) (numExtraFeatures : Nat)
    (hi : c.extraFeatures.length = numExtraFeatures)
    (hd : c.extraFeaturesd.length = numExtraFeatures)
    (ft : Int) (h0 : 0 ≤ ft) (hlt : ft < numExtraFeatures) :
    (∀ (T : SlotType) (v : T.Val), T ≠ SlotType.double →
      ∃ c1, c.set T ft v = some c1 ∧
        (∀ g, c1.get SlotType.double g = c.get SlotType.double g) ∧
        (∀ g, g ≠ ft → ∀ T2, c1.get T2 g = c.get T2 g)) ∧
    (∀ d : Float,
      ∃ c1, c.set SlotType.double ft d = some c1 ∧
        (∀ g T2, T2 ≠ SlotType.double → c1.get T2 g = c.get T2 g) ∧
        (∀ g, g ≠ ft → c1.get SlotType.double g = c.get SlotType.double g)) := by
  have hlti : ft < c.extraFeatures.length := by rw [hi]; exact hlt
  have hltd : ft < c.extraFeaturesd.length := by rw [hd]; exact hlt
  constructor
  · intro T v hT
    cases T with
    | double => exact absurd rfl hT
    | bool =>
      obtain ⟨w, hset, h1, h2⟩ :=
        ComprCUCtx.set_int_frame c ft (if v = true then 1 else 0) h0 hlti
      exact ⟨{ c with extraFeatures := w }, by simp [ComprCUCtx.set, hset], h1, h2⟩
    | int =>
      obtain ⟨w, hset, h1, h2⟩ := ComprCUCtx.set_int_frame c ft v h0 hlti
      exact ⟨{ c with extraFeatures := w }, by simp [ComprCUCtx.set, hset], h1, h2⟩
    | unsigned =>
      obtain ⟨w, hset, h1, h2⟩ := ComprCUCtx.set_int_frame c ft v h0 hlti
      exact ⟨{ c with extraFeatures := w }, by simp [ComprCUCtx.set, hset], h1, h2⟩
    | int64_t =>
      obtain ⟨w, hset, h1, h2⟩ := ComprCUCtx.set_int_frame c ft v h0 hlti
      exact ⟨{ c with extraFeatures := w }, by simp [ComprCUCtx.set, hset], h1, h2⟩
  · intro d
    obtain ⟨w, hset, hother⟩ := static_vector.get_set_other c.extraFeaturesd ft d h0 hltd
    refine ⟨{ c with extraFeaturesd := w }, by simp [ComprCUCtx.set, hset], ?_, ?_⟩
    · intro g T2 hT2
      cases T2 with
      | double => exact absurd rfl hT2
      | bool => rfl
      | int => rfl
      | unsigned => rfl
      | int64_t => rfl
    · intro g hg
      simp [ComprCUCtx.get, hother g hg]

/-- Instance of C17: on the context built with 20 slots, after the `int`
value 5 is written to slot 19, `get<double>(19)` still gives 0.0. -/
theorem slot_banks_are_independent_witness :
    (0 : Int) ≤ 19 ∧ (19 : Int) < (20 : Nat) ∧
    ∃ c1, sampleCtx.set SlotType.int 19 5 = some c1 ∧
      c1.get SlotType.double 19 = some 0.0 :=
  match (slot_banks_are_independent sampleCtx 20
      (ComprCUCtx.create_slots sampleLib sampleCS 0 3 20).1
      (ComprCUCtx.create_slots sampleLib sampleCS 0 3 20).2
      19 (by decide) (by decide)).1 SlotType.int 5 (by decide) with
  | ⟨c1, hset, hdouble, _⟩ => ⟨by decide, by decide, c1, hset, (hdouble 19).trans rfl⟩

/-! ## Theorems: the enumeration of the heuristic slots -/

theorem ExtraFeatures.values_below_count (S : FeatureSwitches) :
    ∀ p ∈ ExtraFeatures.values S, p.1 ≠ ExtraFeatures.NUM_EXTRA_FEATURES →
      p.2 < ExtraFeatures.numExtraFeatures S := by
  obtain ⟨a, b, c, d⟩ := S
  cases a <;> cases b <;> cases c <;> cases d <;> decide

theorem static_vector.get_isSome_of_lt {T : Type} (v : List T) (i : Nat) (h : i < v.length) :
    (static_vector.get v (i : Int)).isSome = true := by
  simp [static_vector.get, h]

/-- C18: for every combination of the switches `JVET_K0220_ENC_CTRL`,
`HM_NO_ADDITIONAL_SPEEDUPS`, `JVET_K0357_AMVR` and `REUSE_CU_RESULTS`,
`NUM_EXTRA_FEATURES` is at most 30, the capacity of the two slot banks; the
enumerators have the consecutive values 0, 1, 2, .. up to
`NUM_EXTRA_FEATURES`, which is the last one, so those below it are pairwise
distinct; and every enumerator below `NUM_EXTRA_FEATURES` is the index of a
slot inside both banks of a context built with
`numExtraFeatures = NUM_EXTRA_FEATURES`. -/
theorem extra_features_fit_slot_banks (S : FeatureSwitches) (K : CommonLib)
    (cs : CodingStructure) (minDepth maxDepth : Nat) :
    ExtraFeatures.numExtraFeatures S ≤ 30 ∧
    ((ExtraFeatures.values S).map (fun p => p.2) =
        List.range (ExtraFeatures.numExtraFeatures S + 1) ∧
      ((ExtraFeatures.values S).map (fun p => p.1)).Nodup ∧
      (ExtraFeatures.values S).getLast? =
        some (ExtraFeatures.NUM_EXTRA_FEATURES, ExtraFeatures.numExtraFeatures S)) ∧
    (∀ p ∈ ExtraFeatures.values S, p.1 ≠ ExtraFeatures.NUM_EXTRA_FEATURES →
      p.2 < ExtraFeatures.numExtraFeatures S ∧
      (static_vector.get (ComprCUCtx.create K cs minDepth maxDepth
        (ExtraFeatures.numExtraFeatures S)).extraFeatures (p.2 : Int)).isSome = true ∧
      (static_vector.get (ComprCUCtx.create K cs minDepth maxDepth
        (ExtraFeatures.numExtraFeatures S)).extraFeaturesd (p.2 : Int)).isSome = true) := by
  have hlen := ComprCUCtx.create_slots K cs minDepth maxDepth (ExtraFeatures.numExtraFeatures S)
  refine ⟨?_, ?_, ?_⟩
  · obtain ⟨a, b, c, d⟩ := S
    cases a <;> cases b <;> cases c <;> cases d <;> decide
  · obtain ⟨a, b, c, d⟩ := S
    cases a <;> cases b <;> cases c <;> cases d <;> decide
  · intro p hp hne
    have hlt := ExtraFeatures.values_below_count S p hp hne
    refine ⟨hlt, ?_, ?_⟩
    · exact static_vector.get_isSome_of_lt _ _ (by rw [hlen.1]; exact hlt)
    · exact static_vector.get_isSome_of_lt _ _ (by rw [hlen.2]; exact hlt)

/-- Instance of C18 at the switches of `sampleSwitches`: 16 slots, and
`IS_REUSING_CU = 15` is the last index. -/
theorem extra_features_fit_slot_banks_witness :
    ExtraFeatures.numExtraFeatures sampleSwitches = 16 ∧
    ExtraFeatures.value sampleSwitches ExtraFeatures.IS_REUSING_CU = some 15 ∧
    ExtraFeatures.numExtraFeatures sampleSwitches ≤ 30 :=
  ⟨by decide, by decide,
    (extra_features_fit_slot_banks sampleSwitches sampleLib sampleCS 0 3).1⟩

/-! ## Theorems: the combined MSE -/

theorem sampleLib_subsamplesAsNamed : sampleLib.SubsamplesAsNamed := by
  refine ⟨⟨rfl, rfl, rfl⟩, ?_, ?_⟩
  · intro chFmt
    exact ⟨rfl, rfl⟩
  · intro compID h
    cases compID
    · exact absurd rfl h
    · exact ⟨⟨rfl, rfl⟩, ⟨rfl, rfl⟩, ⟨rfl, rfl⟩⟩
    · exact ⟨⟨rfl, rfl⟩, ⟨rfl, rfl⟩, ⟨rfl, rfl⟩⟩

theorem Analyze.calculateCombinedValues_mse (K : CommonLib) (a : Analyze)
    (chFmt : ChromaFormat) (bitDepths : BitDepths)
    (h3 : K.getNumberValidComponents chFmt = 3) :
    (Analyze.calculateCombinedValues K a chFmt bitDepths).2 =
      Analyze.specWeightedMean K a chFmt bitDepths := by
  have hmax : (if bitDepths.recon ChannelType.CHANNEL_TYPE_CHROMA >
        bitDepths.recon ChannelType.CHANNEL_TYPE_LUMA
      then bitDepths.recon ChannelType.CHANNEL_TYPE_CHROMA
      else bitDepths.recon ChannelType.CHANNEL_TYPE_LUMA) =
      max (bitDepths.recon ChannelType.CHANNEL_TYPE_LUMA)
        (bitDepths.recon ChannelType.CHANNEL_TYPE_CHROMA) := by
    split <;> omega
  simp only [Analyze.calculateCombinedValues, Analyze.specWeightedMean, Analyze.specWeight,
    Analyze.specChannelMSE, Analyze.combineStep, h3, hmax, ComponentID.all, List.take,
    List.foldl, Nat.one_shiftLeft, Int.zero_add]

theorem Analyze.specWeight_total (K : CommonLib) (hK : K.SubsamplesAsNamed) :
    (Analyze.specWeight K CHROMA_420 ComponentID.COMPONENT_Y = 4 ∧
      Analyze.specWeight K CHROMA_420 ComponentID.COMPONENT_Cb = 1 ∧
      Analyze.specWeight K CHROMA_420 ComponentID.COMPONENT_Cr = 1) ∧
    (Analyze.specWeight K CHROMA_422 ComponentID.COMPONENT_Y = 4 ∧
      Analyze.specWeight K CHROMA_422 ComponentID.COMPONENT_Cb = 2 ∧
      Analyze.specWeight K CHROMA_422 ComponentID.COMPONENT_Cr = 2) ∧
    (Analyze.specWeight K CHROMA_444 ComponentID.COMPONENT_Y = 4 ∧
      Analyze.specWeight K CHROMA_444 ComponentID.COMPONENT_Cb = 4 ∧
      Analyze.specWeight K CHROMA_444 ComponentID.COMPONENT_Cr = 4) := by
  obtain ⟨_, hY, hC⟩ := hK
  have hCb := hC ComponentID.COMPONENT_Cb (by decide)
  have hCr := hC ComponentID.COMPONENT_Cr (by decide)
  simp [Analyze.specWeight, hY, hCb, hCr]

theorem Analyze.specChannelMSE_equal_depths (K : CommonLib) (a : Analyze)
    (bitDepths : BitDepths)
    (heq : bitDepths.recon ChannelType.CHANNEL_TYPE_LUMA =
      bitDepths.recon ChannelType.CHANNEL_TYPE_CHROMA) (compID : ComponentID) :
    Analyze.specChannelMSE K a bitDepths compID =
      a.m_MSEyuvframe compID * Float.ofNat 1 / Float.ofNat a.getNumPic := by
  have hzero : toUnsigned (2 *
      (max (bitDepths.recon ChannelType.CHANNEL_TYPE_LUMA)
          (bitDepths.recon ChannelType.CHANNEL_TYPE_CHROMA) -
        bitDepths.recon (K.toChannelType compID))) = 0 := by
    have hd : max (bitDepths.recon ChannelType.CHANNEL_TYPE_LUMA)
          (bitDepths.recon ChannelType.CHANNEL_TYPE_CHROMA) -
        bitDepths.recon (K.toChannelType compID) = 0 := by
      cases K.toChannelType compID <;> omega
    rw [hd]
    rfl
  unfold Analyze.specChannelMSE
  rw [hzero]
  rfl

/-- The kernel-checkable part of the combined values: for the three colour
formats, with the helper functions of the chroma format taking the values the
format names stand for, `calculateCombinedValues` returns as `MSEyuv` the
weighted mean of the per-component mean MSEs (MSE sum, rescaled by
`2^(2*(maxBitDepth - componentBitDepth))`, over `getNumPic()`) with the
integer weight `4 >> (csx + csy)` per component; the total weight, the
divisor, is 6 for 4:2:0, 8 for 4:2:2 and 12 for 4:4:4. With equal bit depths
and 4:2:0, `MSEyuv = (4*MSE_Y + MSE_Cb + MSE_Cr) / 6`, computed as the code
computes it. `PSNRyuv` is 999.99 when `MSEyuv == 0` holds and the value
`10 * log10(maxval^2 / MSEyuv)` when it does not; whether that value can
itself round to 999.99 is a fact of floating-point arithmetic that no theorem
here decides. -/
theorem Analyze.combined_mse_weighted_mean (K : CommonLib) (a : Analyze) (chFmt : ChromaFormat)
    (bitDepths : BitDepths) (hK : K.SubsamplesAsNamed)
    (hfmt : chFmt = CHROMA_420 ∨ chFmt = CHROMA_422 ∨ chFmt = CHROMA_444) :
    (Analyze.calculateCombinedValues K a chFmt bitDepths).2 =
      Analyze.specWeightedMean K a chFmt bitDepths ∧
    ((Analyze.specWeight K chFmt ComponentID.COMPONENT_Y : Int) +
        Analyze.specWeight K chFmt ComponentID.COMPONENT_Cb +
        Analyze.specWeight K chFmt ComponentID.COMPONENT_Cr =
      if chFmt = CHROMA_420 then 6 else if chFmt = CHROMA_422 then 8 else 12) ∧
    (chFmt = CHROMA_420 →
      bitDepths.recon ChannelType.CHANNEL_TYPE_LUMA =
        bitDepths.recon ChannelType.CHANNEL_TYPE_CHROMA →
      (Analyze.calculateCombinedValues K a chFmt bitDepths).2 =
        (0 +
          Float.ofInt 4 *
            (a.m_MSEyuvframe ComponentID.COMPONENT_Y * Float.ofNat 1 / Float.ofNat a.getNumPic) +
          Float.ofInt 1 *
            (a.m_MSEyuvframe ComponentID.COMPONENT_Cb * Float.ofNat 1 / Float.ofNat a.getNumPic) +
          Float.ofInt 1 *
            (a.m_MSEyuvframe ComponentID.COMPONENT_Cr * Float.ofNat 1 / Float.ofNat a.getNumPic)) /
        Float.ofInt 6) ∧
    ((((Analyze.calculateCombinedValues K a chFmt bitDepths).2 == 0) = true →
        (Analyze.calculateCombinedValues K a chFmt bitDepths).1 = 999.99) ∧
      (((Analyze.calculateCombinedValues K a chFmt bitDepths).2 == 0) = false →
        (Analyze.calculateCombinedValues K a chFmt bitDepths).1 =
          10.0 * Float.log10
            (Float.ofNat
              ((shlToUInt32 255
                  (max (bitDepths.recon ChannelType.CHANNEL_TYPE_LUMA)
                    (bitDepths.recon ChannelType.CHANNEL_TYPE_CHROMA) - 8) *
                shlToUInt32 255
                  (max (bitDepths.recon ChannelType.CHANNEL_TYPE_LUMA)
                    (bitDepths.recon ChannelType.CHANNEL_TYPE_CHROMA) - 8)) % 2 ^ 32) /
              (Analyze.calculateCombinedValues K a chFmt bitDepths).2))) := by
  have h3 : K.getNumberValidComponents chFmt = 3 := by
    rcases hfmt with h | h | h
    · rw [h]; exact hK.1.1
    · rw [h]; exact hK.1.2.1
    · rw [h]; exact hK.1.2.2
  have hmse := Analyze.calculateCombinedValues_mse K a chFmt bitDepths h3
  obtain ⟨w420, w422, w444⟩ := Analyze.specWeight_total K hK
  refine ⟨hmse, ?_, ?_, ?_, ?_⟩
  · rcases hfmt with h | h | h
    · subst h
      rw [w420.1, w420.2.1, w420.2.2]
      rfl
    · subst h
      rw [w422.1, w422.2.1, w422.2.2]
      rfl
    · subst h
      rw [w444.1, w444.2.1, w444.2.2]
      rfl
  · intro h420 heq
    subst h420
    rw [hmse]
    unfold Analyze.specWeightedMean
    rw [w420.1, w420.2.1, w420.2.2,
      Analyze.specChannelMSE_equal_depths K a bitDepths heq ComponentID.COMPONENT_Y,
      Analyze.specChannelMSE_equal_depths K a bitDepths heq ComponentID.COMPONENT_Cb,
      Analyze.specChannelMSE_equal_depths K a bitDepths heq ComponentID.COMPONENT_Cr]
    rfl
  · intro hz
    rw [Analyze.calculateCombinedValues_psnr, hz]
    simp
  · intro hz
    rw [Analyze.calculateCombinedValues_psnr, hz]
    simp

/-- The combined MSE at 4:2:0 with 10 bits for luma and chroma: the divisor
is 6. -/
theorem Analyze.combined_mse_weighted_mean_sample :
    sampleLib.SubsamplesAsNamed ∧
    (CHROMA_420 = CHROMA_420 ∨ CHROMA_420 = CHROMA_422 ∨ CHROMA_420 = CHROMA_444) ∧
    (Analyze.calculateCombinedValues sampleLib sampleAnalyze CHROMA_420 sampleBitDepths).2 =
      Analyze.specWeightedMean sampleLib sampleAnalyze CHROMA_420 sampleBitDepths ∧
    (Analyze.specWeight sampleLib CHROMA_420 ComponentID.COMPONENT_Y : Int) +
        Analyze.specWeight sampleLib CHROMA_420 ComponentID.COMPONENT_Cb +
        Analyze.specWeight sampleLib CHROMA_420 ComponentID.COMPONENT_Cr = 6 :=
  have h := Analyze.combined_mse_weighted_mean sampleLib sampleAnalyze CHROMA_420 sampleBitDepths
    sampleLib_subsamplesAsNamed (Or.inl rfl)
  ⟨sampleLib_subsamplesAsNamed, Or.inl rfl, h.1, h.2.1⟩

end PAMC
